import Mathlib

/-!
Verification development for the campaign message dispatch and
delivery-state reconciliation engine of the shuddhika lead-management
backend.

The relational store (Prisma over PostgreSQL) is embedded as explicit
lists of records (`Store`).  Each backend operation is translated into a
pure state-passing function over `Store`:

* `processStatusUpdate`, `processIncomingMessage`, `updateCampaignStats`,
  `processWebhookEvent`, `handleWebhookPost`
  from `src/backend/src/services/whatsapp/webhook.ts` and
  `src/backend/src/routes/webhook.ts`;
* `startCampaign`, `pauseCampaign`, `resumeCampaign`,
  `retryFailedCampaign`, `pcmStep`/`pcmLoop`/`processCampaignMessages`
  (the in-process dispatch loop `processCampaignMessages`),
  `SENDING_SPEEDS` and `retryWaitMs`
  from `src/backend/src/routes/campaigns.ts`;
* `sendCampaignMessage` from `src/backend/src/services/whatsapp/client.ts`;
* `processWorkerJob` from `src/backend/src/services/queue/campaignWorker.ts`.

The external WhatsApp client is a collaborator: its responses enter the
model as explicit `WaResult` values (a scripted list of results for the
dispatch loop, mirroring one result per actual HTTP send call).  Times
(`new Date()` and callback timestamps) enter as explicit `Nat`
parameters in milliseconds.  Console logging, push notifications and the
provider payload (template parameter resolution) have no effect on the
store and are not modelled.
-/

/-- Direction of a message log row (Prisma enum `MessageDirection`). -/
inductive Direction
  | INBOUND
  | OUTBOUND
  deriving DecidableEq, Repr

/-- Prisma enum `MessageStatus` for `messageLog.status`. -/
inductive MessageStatus
  | PENDING
  | QUEUED
  | SENT
  | DELIVERED
  | READ
  | FAILED
  deriving DecidableEq, Repr

/-- Prisma enum `LeadStatus`. -/
inductive LeadStatus
  | NEW
  | CONTACTED
  | INTERESTED
  | NEGOTIATING
  | CONVERTED
  | REJECTED
  | DO_NOT_CONTACT
  deriving DecidableEq, Repr

/-- Prisma enum `CampaignStatus`. -/
inductive CampaignStatus
  | DRAFT
  | SCHEDULED
  | RUNNING
  | PAUSED
  | COMPLETED
  | CANCELLED
  deriving DecidableEq, Repr

/-- Prisma enum `CampaignLeadStatus` (the Enrollment status). -/
inductive CampaignLeadStatus
  | PENDING
  | SENT
  | DELIVERED
  | READ
  | FAILED
  | OPTED_OUT
  deriving DecidableEq, Repr

/-- Message log content.  The code stores either the template body text or a
JSON blob combining body text, media URL and media type; the JSON
serialization itself is irrelevant to every operation, so the two shapes
are kept as constructors. -/
inductive Content
  | txt (body : Option String)
  | media (body : Option String) (mediaUrl : String) (mediaType : Option String)
  deriving DecidableEq, Repr

/-- A row of the `leads` table (fields touched by the engine). -/
structure Lead where
  id : Nat
  phone : String
  name : String
  businessName : Option String
  city : Option String
  source : Option String
  tags : List String
  status : LeadStatus
  optedOut : Bool
  optedOutAt : Option Nat
  lastContactedAt : Option Nat
  notes : Option String
  deriving DecidableEq, Repr

/-- A row of the `message_templates` table (fields read by the engine). -/
structure MessageTemplate where
  id : Nat
  whatsappTemplateName : Option String
  bodyText : Option String
  headerType : Option String
  headerContent : Option String
  language : String
  approved : Bool
  deriving DecidableEq, Repr

/-- The campaign target specification, stored by the create route as a loose
JSON blob on the campaign (`targetFilters`): either an explicit lead-id
set or per-field filters, plus the dedup flag, header media URL and the
sending-speed name. -/
structure TargetFilters where
  leadIds : Option (List Nat)
  statusIn : Option (List LeadStatus)
  sourceIn : Option (List String)
  tagsHasSome : Option (List String)
  citiesIn : Option (List String)
  skipDuplicateTemplate : Bool
  headerMediaUrl : Option String
  sendingSpeed : Option String
  deriving DecidableEq, Repr

/-- A row of the `campaigns` table (fields touched by the engine). -/
structure Campaign where
  id : Nat
  status : CampaignStatus
  templateId : Nat
  targetFilters : TargetFilters
  totalLeads : Nat
  sentCount : Nat
  deliveredCount : Nat
  readCount : Nat
  failedCount : Nat
  startedAt : Option Nat
  completedAt : Option Nat
  deriving DecidableEq, Repr

/-- A row of the `campaign_leads` table (the Enrollment row, unique per
campaign and lead pair). -/
structure CampaignLead where
  campaignId : Nat
  leadId : Nat
  status : CampaignLeadStatus
  deriving DecidableEq, Repr

/-- A row of the `message_logs` table (the Ledger Entry). -/
structure MessageLog where
  id : Nat
  leadId : Nat
  campaignId : Option Nat
  templateId : Option Nat
  direction : Direction
  whatsappMessageId : Option String
  content : Content
  status : MessageStatus
  sentAt : Option Nat
  deliveredAt : Option Nat
  readAt : Option Nat
  failedAt : Option Nat
  errorMessage : Option String
  deriving DecidableEq, Repr

/-- The relational store: the single source of truth shared by the dispatch
loop and the webhook reconciler.  `nextLogId` models the id sequence used
by `messageLog.create`. -/
structure Store where
  leads : List Lead
  templates : List MessageTemplate
  campaigns : List Campaign
  campaignLeads : List CampaignLead
  messageLogs : List MessageLog
  nextLogId : Nat
  deriving DecidableEq, Repr

/-- The four external status values a WhatsApp status callback can carry
(TS union type on `WhatsAppMessageStatus.status`). -/
inductive CallbackStatus
  | sent
  | delivered
  | read
  | failed
  deriving DecidableEq, Repr

/-- An error object inside a failed status callback. -/
structure CallbackError where
  code : Nat
  title : String
  message : String
  deriving DecidableEq, Repr

/-- A status-update webhook event (`WhatsAppMessageStatus`); `timestamp` is
the already-parsed epoch-seconds value.  An absent `errors` array and an
empty one behave identically in the code, so both are the empty list. -/
structure StatusEvent where
  id : String
  status : CallbackStatus
  timestamp : Nat
  recipientId : String
  errors : List CallbackError
  deriving DecidableEq, Repr

/-- An inbound message webhook event (`WhatsAppIncomingMessage`); `text` is
the optional `text.body` field and `msgType` the `type` discriminator. -/
structure IncomingMessage where
  fromPhone : String
  id : String
  timestamp : Nat
  msgType : String
  text : Option String
  deriving DecidableEq, Repr

/-- The `value` object of one webhook change: optional status updates and
optional incoming messages. -/
structure WebhookValue where
  statuses : Option (List StatusEvent)
  messages : Option (List IncomingMessage)
  deriving DecidableEq, Repr

/-- One webhook entry: a list of changes (metadata fields are unused). -/
structure WebhookEntry where
  changes : List WebhookValue
  deriving DecidableEq, Repr

/-- The full webhook POST payload (`WhatsAppWebhookPayload`). -/
structure WebhookPayload where
  object : String
  entry : List WebhookEntry
  deriving DecidableEq, Repr

/-- Format one callback error the way `processStatusUpdate` does before
joining with a semicolon. -/
def formatCallbackError (e : CallbackError) : String :=
  toString e.code ++ ": " ++ e.title ++ " - " ++ e.message

/-- The switch over the external status in `processStatusUpdate`
(webhook.ts lines 55-78): build the update object applied to the found
message log.  `ts` is the callback timestamp in milliseconds. -/
def applyStatusToLog (log : MessageLog) (ev : StatusEvent) (ts : Nat) : MessageLog :=
  match ev.status with
  | .sent => { log with status := .SENT, sentAt := some ts }
  | .delivered => { log with status := .DELIVERED, deliveredAt := some ts }
  | .read => { log with status := .READ, readAt := some ts }
  | .failed =>
      if ev.errors.isEmpty then
        { log with status := .FAILED, failedAt := some ts }
      else
        let m := String.intercalate "; " (ev.errors.map formatCallbackError)
        { log with status := .FAILED, failedAt := some ts, errorMessage := some m }

/-- Count the message logs of campaign `cid` currently in status `s`
(one bucket of the `groupBy` in `updateCampaignStats`). -/
def countLogs (st : Store) (cid : Nat) (s : MessageStatus) : Nat :=
  (st.messageLogs.filter
    (fun l => decide (l.campaignId = some cid ∧ l.status = s))).length

/-- Recompute and persist the campaign aggregate counters from the current
ledger state (webhook.ts `updateCampaignStats`, lines 158-179). -/
def setStatsFromLogs (st : Store) (cid : Nat) (c : Campaign) : Campaign :=
  { c with
    sentCount := countLogs st cid .SENT + countLogs st cid .DELIVERED + countLogs st cid .READ
    deliveredCount := countLogs st cid .DELIVERED + countLogs st cid .READ
    readCount := countLogs st cid .READ
    failedCount := countLogs st cid .FAILED }

/-- Persist the recomputed counters on the campaign row. -/
def updateCampaignStats (st : Store) (cid : Nat) : Store :=
  let cs := st.campaigns.map (fun c => if c.id = cid then setStatsFromLogs st cid c else c)
  { st with campaigns := cs }

/-- Process one status-update callback (webhook.ts `processStatusUpdate`,
lines 37-91): find the message log by provider message id; if absent, log
and drop; otherwise apply the status switch and, when the log belongs to
a campaign, re-aggregate that campaign's counters. -/
def processStatusUpdate (st : Store) (ev : StatusEvent) : Store :=
  match st.messageLogs.find?
      (fun l => decide (l.whatsappMessageId = some ev.id)) with
  | none => st
  | some log =>
      let ts := ev.timestamp * 1000
      let logs := st.messageLogs.map
        (fun l => if l.id = log.id then applyStatusToLog l ev ts else l)
      let st1 := { st with messageLogs := logs }
      match log.campaignId with
      | some cid => updateCampaignStats st1 cid
      | none => st1

/-- Decide whether `needle` occurs inside `hay` (JS `String.includes`). -/
def charsContain (needle : List Char) : List Char → Bool
  | [] => needle.isEmpty
  | c :: t => needle.isPrefixOf (c :: t) || charsContain needle t

/-- JS `hay.includes(needle)` on strings. -/
def strIncludes (hay needle : String) : Bool :=
  charsContain needle.data hay.data

/-- The fixed multi-language opt-out keyword set (webhook.ts line 112). -/
def optOutKeywords : List String :=
  ["stop", "unsubscribe", "opt out", "रोकें", "बंद करो"]

/-- True when the lowercased message text contains one of the opt-out
keywords (webhook.ts lines 111-114). -/
def optOutMatch (msg : IncomingMessage) : Bool :=
  let messageText := (msg.text.map String.toLower).getD ""
  optOutKeywords.any (fun k => strIncludes messageText k)

/-- Process one inbound message (webhook.ts `processIncomingMessage`, lines
96-153): find the lead by phone, drop if unknown; on an opt-out keyword
match mark the lead opted out (flag, timestamp, DO_NOT_CONTACT) and stop;
otherwise create an INBOUND DELIVERED message log.  The push notification
has no store effect. -/
def processIncomingMessage (st : Store) (msg : IncomingMessage) (now : Nat) : Store :=
  match st.leads.find? (fun l => decide (l.phone = msg.fromPhone)) with
  | none => st
  | some lead =>
      if optOutMatch msg then
        let newLeads := st.leads.map (fun l =>
          if l.id = lead.id then
            { l with optedOut := true, optedOutAt := some now, status := LeadStatus.DO_NOT_CONTACT }
          else l)
        { st with leads := newLeads }
      else
        let body := msg.text.getD ""
        let content := if body = "" then "[" ++ msg.msgType ++ "]" else body
        let newLog : MessageLog :=
          { id := st.nextLogId
            leadId := lead.id
            campaignId := none
            templateId := none
            direction := .INBOUND
            whatsappMessageId := some msg.id
            content := .txt (some content)
            status := .DELIVERED
            sentAt := none
            deliveredAt := some now
            readAt := none
            failedAt := none
            errorMessage := none }
        { st with messageLogs := st.messageLogs ++ [newLog], nextLogId := st.nextLogId + 1 }

/-- Process one change value: the statuses loop then the messages loop
(webhook.ts `processWebhookEvent`, lines 12-32). -/
def processChangeValue (st : Store) (v : WebhookValue) (now : Nat) : Store :=
  let st1 := match v.statuses with
    | some evs => evs.foldl processStatusUpdate st
    | none => st
  match v.messages with
  | some msgs => msgs.foldl (fun s m => processIncomingMessage s m now) st1
  | none => st1

/-- Process a full webhook payload: every change of every entry in order. -/
def processWebhookEvent (st : Store) (p : WebhookPayload) (now : Nat) : Store :=
  p.entry.foldl
    (fun s e => e.changes.foldl (fun s2 v => processChangeValue s2 v now) s) st

/-- The webhook POST route (routes/webhook.ts lines 28-46): respond 200
immediately, then process the payload, ignoring non-WhatsApp objects;
processing errors are caught and swallowed, never changing the response.
Returns the HTTP status sent to the provider and the resulting store. -/
def handleWebhookPost (st : Store) (p : WebhookPayload) (now : Nat) : Nat × Store :=
  (200,
    if p.object = "whatsapp_business_account" then processWebhookEvent st p now
    else st)

/-- A sending-speed preset (campaigns.ts `SENDING_SPEEDS`, lines 13-19):
inter-send delay in milliseconds and an optional daily send cap. -/
structure SpeedConfig where
  delayMs : Nat
  dailyLimit : Option Nat
  deriving DecidableEq, Repr

/-- The sending speed preset table (campaigns.ts lines 13-19). -/
def SENDING_SPEEDS (name : String) : Option SpeedConfig :=
  if name = "fast" then some { delayMs := 5000, dailyLimit := none }
  else if name = "normal" then some { delayMs := 30000, dailyLimit := none }
  else if name = "slow" then some { delayMs := 300000, dailyLimit := none }
  else if name = "very_slow" then some { delayMs := 600000, dailyLimit := none }
  else if name = "warmup" then some { delayMs := 1800000, dailyLimit := some 10 }
  else none

/-- Resolve the preset the loop uses:
`SENDING_SPEEDS[sendingSpeed] ?? SENDING_SPEEDS['normal']!` (line 638). -/
def speedConfigFor (name : String) : SpeedConfig :=
  (SENDING_SPEEDS name).getD { delayMs := 30000, dailyLimit := none }

/-- The extended wait before a throttle retry (campaigns.ts line 685):
`Math.min(BASE_DELAY * 2, 600_000)`. -/
def retryWaitMs (baseDelay : Nat) : Nat :=
  min (baseDelay * 2) 600000

/-- Errors surfaced synchronously by the campaign routes. -/
inductive RouteErr
  | notFound
  | invalidState
  | noEligibleRecipients
  | noRetryableFailed
  deriving DecidableEq, Repr

/-- Update the campaign row with the matching id (`prisma.campaign.update`). -/
def setCampaign (st : Store) (cid : Nat) (f : Campaign → Campaign) : Store :=
  { st with campaigns := st.campaigns.map (fun c => if c.id = cid then f c else c) }

/-- Status of the campaign row with id `cid`, when present. -/
def campaignStatusFor (st : Store) (cid : Nat) : Option CampaignStatus :=
  (st.campaigns.find? (fun c => decide (c.id = cid))).map Campaign.status

/-- Status of the enrollment row for the (campaign, lead) pair, when
present. -/
def rowStatusFor (st : Store) (cid leadId : Nat) : Option CampaignLeadStatus :=
  (st.campaignLeads.find?
    (fun r => decide (r.campaignId = cid ∧ r.leadId = leadId))).map CampaignLead.status

/-- `prisma.campaignLead.updateMany` on the (campaign, lead) pair, setting
the enrollment status. -/
def setRowStatus (st : Store) (cid leadId : Nat) (s : CampaignLeadStatus) : Store :=
  { st with campaignLeads := st.campaignLeads.map (fun r =>
      if r.campaignId = cid ∧ r.leadId = leadId then { r with status := s } else r) }

/-- Leads are excluded when DO_NOT_CONTACT or REJECTED
(`status: { notIn: [...] }`). -/
def notDncRejected (l : Lead) : Bool :=
  decide (l.status ≠ .DO_NOT_CONTACT ∧ l.status ≠ .REJECTED)

/-- Resolve the campaign's target recipients (campaigns.ts lines 273-307):
either the explicit lead-id set or the filter-based query.  When a status
filter is present it replaces the DO_NOT_CONTACT/REJECTED exclusion, as
in the code (`leadWhere.status` is overwritten). -/
def resolveTargetLeads (st : Store) (tf : TargetFilters) : List Lead :=
  match tf.leadIds with
  | some (i :: is) =>
      st.leads.filter (fun l =>
        (i :: is).any (fun j => decide (j = l.id)) && !l.optedOut && notDncRejected l)
  | _ =>
      st.leads.filter (fun l =>
        !l.optedOut &&
        (match tf.statusIn with
         | some (s :: ss) => (s :: ss).any (fun s2 => decide (s2 = l.status))
         | _ => notDncRejected l) &&
        (match tf.sourceIn with
         | some (s :: ss) =>
             match l.source with
             | some src => (s :: ss).any (fun s2 => decide (s2 = src))
             | none => false
         | _ => true) &&
        (match tf.tagsHasSome with
         | some (t :: tgs) => (t :: tgs).any (fun tag => l.tags.any (fun tg => decide (tg = tag)))
         | _ => true) &&
        (match tf.citiesIn with
         | some (c :: cs) =>
             match l.city with
             | some city => (c :: cs).any (fun c2 => decide (c2 = city))
             | none => false
         | _ => true))

/-- Lead ids that already received this template: one entry per message log
with the campaign's template, direction OUTBOUND and status not FAILED
(campaigns.ts lines 259-271; `distinct` only drops duplicates, so a
duplicated list is the same set). -/
def dedupLeadIds (st : Store) (templateId : Nat) : List Nat :=
  (st.messageLogs.filter (fun m =>
    decide (m.templateId = some templateId ∧ m.direction = .OUTBOUND ∧
      m.status ≠ .FAILED))).map MessageLog.leadId

/-- The start route, synchronous part (campaigns.ts `POST /:id/start`, lines
236-354): guard against RUNNING and COMPLETED, resolve the target leads,
drop leads that already received the template when dedup is on, fail when
nothing remains, bulk-create the PENDING enrollment rows skipping
existing pairs, and flip the campaign to RUNNING.  The detached dispatch
run is modelled separately by `processCampaignMessages`; the route
returns the enrolled count immediately.  First, the recipient resolution (campaigns.ts lines 254-316):
resolve the target leads and, when dedup is on and some lead already
received this template, filter those out. -/
def startEligibleLeads (st : Store) (campaign : Campaign) : List Lead :=
  let tf := campaign.targetFilters
  let alreadyReceivedIds :=
    if tf.skipDuplicateTemplate then dedupLeadIds st campaign.templateId else []
  let leads0 := resolveTargetLeads st tf
  if alreadyReceivedIds.isEmpty then leads0
  else leads0.filter (fun l => !(alreadyReceivedIds.any (fun j => decide (j = l.id))))

/-- The enrollment rows bulk-created by the start route
(`createMany` with `skipDuplicates`, campaigns.ts lines 322-330): one
PENDING row per eligible lead that has no existing row for this
campaign. -/
def startNewRows (st : Store) (cid : Nat) (campaign : Campaign) : List CampaignLead :=
  ((startEligibleLeads st campaign).filter (fun l =>
    !(st.campaignLeads.any (fun r => decide (r.campaignId = cid ∧ r.leadId = l.id))))).map
    (fun l => ({ campaignId := cid, leadId := l.id, status := .PENDING } : CampaignLead))

/-- The start route, synchronous part (campaigns.ts `POST /:id/start`,
lines 236-354): guard against RUNNING and COMPLETED, resolve the
eligible recipients, fail when nothing remains, bulk-create the PENDING
enrollment rows skipping existing pairs, and flip the campaign to
RUNNING with the enrolled count returned immediately. -/
def startCampaign (st : Store) (cid now : Nat) : Except RouteErr Nat × Store :=
  match st.campaigns.find? (fun c => decide (c.id = cid)) with
  | none => (.error .notFound, st)
  | some campaign =>
      if campaign.status = .RUNNING then (.error .invalidState, st)
      else if campaign.status = .COMPLETED then (.error .invalidState, st)
      else
        let leads1 := startEligibleLeads st campaign
        if leads1.isEmpty then (.error .noEligibleRecipients, st)
        else
          let st1 := { st with campaignLeads := st.campaignLeads ++ startNewRows st cid campaign }
          let st2 := setCampaign st1 cid (fun c =>
            { c with status := .RUNNING, startedAt := some now, totalLeads := leads1.length })
          (.ok leads1.length, st2)

/-- The pause route (campaigns.ts lines 357-376): only RUNNING campaigns can
be paused. -/
def pauseCampaign (st : Store) (cid : Nat) : Except RouteErr Unit × Store :=
  match st.campaigns.find? (fun c => decide (c.id = cid)) with
  | none => (.error .notFound, st)
  | some campaign =>
      if campaign.status ≠ .RUNNING then (.error .invalidState, st)
      else (.ok (), setCampaign st cid (fun c => { c with status := .PAUSED }))

/-- The resume route (campaigns.ts lines 379-398): only PAUSED campaigns can
be resumed. -/
def resumeCampaign (st : Store) (cid : Nat) : Except RouteErr Unit × Store :=
  match st.campaigns.find? (fun c => decide (c.id = cid)) with
  | none => (.error .notFound, st)
  | some campaign =>
      if campaign.status ≠ .PAUSED then (.error .invalidState, st)
      else (.ok (), setCampaign st cid (fun c => { c with status := .RUNNING }))

/-- The retry-failed route, synchronous part (campaigns.ts lines 445-500):
allowed from RUNNING, PAUSED or COMPLETED; select FAILED enrollment rows
whose lead is contactable, reset them to PENDING and set the campaign
RUNNING.  The relaunched dispatch run is again `processCampaignMessages`. -/
def retryFailedCampaign (st : Store) (cid : Nat) : Except RouteErr Nat × Store :=
  match st.campaigns.find? (fun c => decide (c.id = cid)) with
  | none => (.error .notFound, st)
  | some campaign =>
      if campaign.status ≠ .RUNNING ∧ campaign.status ≠ .PAUSED ∧
          campaign.status ≠ .COMPLETED then
        (.error .invalidState, st)
      else
        let failedLeadIds := (st.campaignLeads.filter (fun r =>
          decide (r.campaignId = cid ∧ r.status = .FAILED) &&
            st.leads.any (fun l =>
              decide (l.id = r.leadId) && notDncRejected l && !l.optedOut))).map
          CampaignLead.leadId
        if failedLeadIds.isEmpty then (.error .noRetryableFailed, st)
        else
          let rows := st.campaignLeads.map (fun r =>
            if decide (r.campaignId = cid ∧ r.status = .FAILED) &&
                failedLeadIds.any (fun j => decide (j = r.leadId)) then
              { r with status := .PENDING }
            else r)
          let st1 := { st with campaignLeads := rows }
          let st2 := setCampaign st1 cid (fun c => { c with status := .RUNNING })
          (.ok failedLeadIds.length, st2)

/-- Result of one WhatsApp client send call as the backend sees it
(`sendTemplateMessage` return shape, also the shape returned by
`sendCampaignMessage`). -/
structure WaResult where
  success : Bool
  messageId : Option String
  error : Option String
  errorCode : Option Nat
  deriving DecidableEq, Repr

/-- A failure returned before the client is consulted. -/
def earlyFailure (msg : String) : WaResult :=
  { success := false, messageId := none, error := some msg, errorCode := none }

/-- `prisma.messageLog.update` by log id. -/
def updateLogById (st : Store) (logId : Nat) (f : MessageLog → MessageLog) : Store :=
  { st with messageLogs := st.messageLogs.map (fun l => if l.id = logId then f l else l) }

/-- `prisma.lead.update` by lead id. -/
def updateLeadById (st : Store) (leadId : Nat) (f : Lead → Lead) : Store :=
  { st with leads := st.leads.map (fun l => if l.id = leadId then f l else l) }

/-- Send one campaign message to a lead (client.ts `sendCampaignMessage`,
lines 332-463).  The WhatsApp API response enters as `wa`.  Guards: lead
must exist, the template must exist and carry a WhatsApp template name,
and the lead must not have opted out.  Then a PENDING OUTBOUND message
log is created; on success it becomes SENT with the provider message id
and the lead gets `lastContactedAt` plus NEW to CONTACTED promotion; on
failure it becomes FAILED and error 131026 marks the lead
DO_NOT_CONTACT.  Body-parameter resolution only shapes the provider
payload, which is summarized by `wa`. -/
def sendCampaignMessage (st : Store) (leadId campaignId templateId : Nat)
    (headerMediaUrl : Option String) (wa : WaResult) (now : Nat) : WaResult × Store :=
  match st.leads.find? (fun l => decide (l.id = leadId)) with
  | none => (earlyFailure "Lead not found", st)
  | some lead =>
      match st.templates.find? (fun t => decide (t.id = templateId)) with
      | none => (earlyFailure "Template not configured for WhatsApp", st)
      | some tmpl =>
          if tmpl.whatsappTemplateName.isNone then
            (earlyFailure "Template not configured for WhatsApp", st)
          else if lead.optedOut then (earlyFailure "Lead has opted out", st)
          else
            let mediaUrl := match headerMediaUrl with
              | some u => some u
              | none => tmpl.headerContent
            let content := match mediaUrl with
              | some u => Content.media tmpl.bodyText u tmpl.headerType
              | none => Content.txt tmpl.bodyText
            let newLog : MessageLog :=
              { id := st.nextLogId
                leadId := leadId
                campaignId := some campaignId
                templateId := some templateId
                direction := .OUTBOUND
                whatsappMessageId := none
                content := content
                status := .PENDING
                sentAt := none
                deliveredAt := none
                readAt := none
                failedAt := none
                errorMessage := none }
            let newLogs := st.messageLogs ++ [newLog]
            let st1 := { st with messageLogs := newLogs, nextLogId := st.nextLogId + 1 }
            if wa.success then
              let st2 := updateLogById st1 newLog.id (fun l =>
                { l with
                  whatsappMessageId := wa.messageId
                  status := .SENT
                  sentAt := some now })
              let st3 := updateLeadById st2 leadId (fun l =>
                if lead.status = .NEW then
                  { l with lastContactedAt := some now, status := .CONTACTED }
                else { l with lastContactedAt := some now })
              ({ success := true
                 messageId := wa.messageId
                 error := wa.error
                 errorCode := wa.errorCode }, st3)
            else
              let st2 := updateLogById st1 newLog.id (fun l =>
                { l with
                  status := .FAILED
                  failedAt := some now
                  errorMessage := wa.error })
              let st3 :=
                if wa.errorCode = some 131026 then
                  updateLeadById st2 leadId (fun l =>
                    { l with
                      status := .DO_NOT_CONTACT
                      notes := some "Phone number not on WhatsApp (131026)" })
                else st2
              ({ success := false
                 messageId := wa.messageId
                 error := wa.error
                 errorCode := wa.errorCode }, st3)

/-- True when `sendCampaignMessage` reaches the WhatsApp client call, i.e.
none of its early-return guards fires. -/
def consultsClient (st : Store) (leadId templateId : Nat) : Bool :=
  match st.leads.find? (fun l => decide (l.id = leadId)) with
  | none => false
  | some lead =>
      match st.templates.find? (fun t => decide (t.id = templateId)) with
      | none => false
      | some tmpl => tmpl.whatsappTemplateName.isSome && !lead.optedOut

/-- `sendCampaignMessage` against a script of client responses: one script
entry is consumed per actual HTTP send call (none when a guard
short-circuits).  An exhausted script behaves as a generic failure; the
theorems always supply enough script. -/
def sendCampaignMessageS (st : Store) (leadId campaignId templateId : Nat)
    (headerMediaUrl : Option String) (script : List WaResult) (now : Nat) :
    WaResult × Store × List WaResult :=
  if consultsClient st leadId templateId then
    let wa := script.headD (earlyFailure "script exhausted")
    let out := sendCampaignMessage st leadId campaignId templateId headerMediaUrl wa now
    (out.1, out.2, script.tail)
  else
    let out := sendCampaignMessage st leadId campaignId templateId headerMediaUrl
      (earlyFailure "unused") now
    (out.1, out.2, script)

/-- Outcome of one iteration of the dispatch loop body: `brk` leaves the
loop (the code's `break`), `cont` proceeds to the next recipient.  Both
carry the store, the remaining script and the updated local counters. -/
inductive StepRes
  | brk (st : Store) (script : List WaResult) (sent failed : Nat)
  | cont (st : Store) (script : List WaResult) (sent failed consec : Nat)
  deriving DecidableEq, Repr

/-- Store carried by a step outcome. -/
def StepRes.store : StepRes → Store
  | .brk st _ _ _ => st
  | .cont st _ _ _ _ => st

/-- Script remainder carried by a step outcome. -/
def StepRes.script : StepRes → List WaResult
  | .brk _ s _ _ => s
  | .cont _ s _ _ _ => s

/-- One iteration of the dispatch loop body (campaigns.ts lines 649-744)
for recipient `leadId`: re-read the campaign status and stop unless
RUNNING; pause and stop at the daily cap; otherwise send with one retry
on throttle code 131049, record the enrollment SENT or FAILED, maintain
the consecutive-throttle count with its circuit breaker
(`CONSECUTIVE_THROTTLE_LIMIT = 3`), and persist the running counters.
The paced sleeps and the extended retry wait (`retryWaitMs`) do not
change the store.  First, the send-with-one-retry block (campaigns.ts
lines 671-690). -/
def pcmSendWithRetry (st : Store) (leadId cid templateId : Nat)
    (headerMediaUrl : Option String) (script : List WaResult) (now : Nat) :
    WaResult × Store × List WaResult :=
  let r1 := sendCampaignMessageS st leadId cid templateId headerMediaUrl script now
  if r1.1.success || !(r1.1.errorCode = some 131049 : Bool) then r1
  else sendCampaignMessageS r1.2.1 leadId cid templateId headerMediaUrl r1.2.2 now

/-- The rest of the loop body for one recipient. -/
def pcmStep (cid templateId : Nat) (headerMediaUrl : Option String)
    (dailyLimit : Nat) (st : Store) (leadId : Nat) (script : List WaResult)
    (sent failed consec now : Nat) : StepRes :=
  match st.campaigns.find? (fun c => decide (c.id = cid)) with
  | none => .brk st script sent failed
  | some campaign =>
      if campaign.status ≠ .RUNNING then .brk st script sent failed
      else if dailyLimit > 0 ∧ sent ≥ dailyLimit then
        .brk (setCampaign st cid (fun c => { c with status := .PAUSED })) script sent failed
      else
        let r2 := pcmSendWithRetry st leadId cid templateId headerMediaUrl script now
        let res := r2.1
        let st2 := r2.2.1
        let script2 := r2.2.2
        let st3 := setRowStatus st2 cid leadId (if res.success then .SENT else .FAILED)
        if res.success then
          let st4 := setCampaign st3 cid (fun c =>
            { c with sentCount := sent + 1, failedCount := failed })
          .cont st4 script2 (sent + 1) failed 0
        else
          if res.errorCode = some 131049 then
            if consec + 1 ≥ 3 then
              .brk (setCampaign st3 cid (fun c =>
                { c with status := .PAUSED, failedCount := failed + 1 }))
                script2 sent (failed + 1)
            else
              let st4 := setCampaign st3 cid (fun c =>
                { c with sentCount := sent, failedCount := failed + 1 })
              .cont st4 script2 sent (failed + 1) (consec + 1)
          else
            let st4 := setCampaign st3 cid (fun c =>
              { c with sentCount := sent, failedCount := failed + 1 })
            .cont st4 script2 sent (failed + 1) 0

/-- The completion check after the loop (campaigns.ts lines 746-762): if the
campaign is still RUNNING, mark it COMPLETED with the final counters. -/
def pcmFinalize (st : Store) (cid sent failed now : Nat) : Store :=
  match st.campaigns.find? (fun c => decide (c.id = cid)) with
  | none => st
  | some campaign =>
      if campaign.status = .RUNNING then
        setCampaign st cid (fun c =>
          { c with
            status := .COMPLETED
            completedAt := some now
            sentCount := sent
            failedCount := failed })
      else st

/-- The dispatch iteration over the recipient list (campaigns.ts
`processCampaignMessages` for-loop plus its completion check). -/
def pcmLoop (cid templateId : Nat) (headerMediaUrl : Option String)
    (dailyLimit now : Nat) : List Nat → Store → List WaResult → Nat → Nat → Nat →
    Store × List WaResult
  | [], st, script, sent, failed, _consec =>
      (pcmFinalize st cid sent failed now, script)
  | leadId :: rest, st, script, sent, failed, consec =>
      match pcmStep cid templateId headerMediaUrl dailyLimit st leadId script
          sent failed consec now with
      | .brk st2 script2 sent2 failed2 =>
          (pcmFinalize st2 cid sent2 failed2 now, script2)
      | .cont st2 script2 sent2 failed2 consec2 =>
          pcmLoop cid templateId headerMediaUrl dailyLimit now rest st2 script2
            sent2 failed2 consec2

/-- The detached background dispatch run (campaigns.ts
`processCampaignMessages`, lines 631-765): resolve the speed preset and
iterate the recipients with zeroed local counters. -/
def processCampaignMessages (st : Store) (cid templateId : Nat)
    (leadIds : List Nat) (headerMediaUrl : Option String) (sendingSpeed : String)
    (script : List WaResult) (now : Nat) : Store × List WaResult :=
  let cfg := speedConfigFor sendingSpeed
  pcmLoop cid templateId headerMediaUrl (cfg.dailyLimit.getD 0) now leadIds st script 0 0 0

/-- The first store write of the queue worker's job handler
(campaignWorker.ts lines 121-127): mark the enrollment row SENT before
the send is attempted. -/
def workerMarkSent (st : Store) (cid leadId : Nat) : Store :=
  setRowStatus st cid leadId .SENT

/-- The queue worker's job handler (campaignWorker.ts `startCampaignWorker`,
lines 115-153): mark the row SENT, send, and on failure overwrite the row
to FAILED (then rethrow to BullMQ); on success increment the campaign's
sent counter. -/
def processWorkerJob (st : Store) (cid leadId templateId : Nat)
    (wa : WaResult) (now : Nat) : Store :=
  let st1 := workerMarkSent st cid leadId
  let out := sendCampaignMessage st1 leadId cid templateId none wa now
  if out.1.success then
    setCampaign out.2 cid (fun c => { c with sentCount := c.sentCount + 1 })
  else
    setRowStatus out.2 cid leadId .FAILED

/-! ### General lemmas about the store operations -/

/-- `find?` commutes with a map that does not change the predicate's value. -/
theorem find?_map_stable {α : Type} (p : α → Bool) (f : α → α)
    (h : ∀ a, p (f a) = p a) :
    ∀ xs : List α, (xs.map f).find? p = (xs.find? p).map f := by
  intro xs
  induction xs with
  | nil => rfl
  | cons x xs ih =>
      by_cases hx : p x = true
      · rw [List.map_cons, List.find?_cons_of_pos _ (by rw [h x]; exact hx),
          List.find?_cons_of_pos _ hx]
        rfl
      · rw [List.map_cons, List.find?_cons_of_neg _ (by rw [h x]; exact hx),
          List.find?_cons_of_neg _ hx]
        exact ih

/-- `applyStatusToLog` never changes the row id. -/
theorem applyStatusToLog_id (log : MessageLog) (ev : StatusEvent) (ts : Nat) :
    (applyStatusToLog log ev ts).id = log.id := by
  cases hs : ev.status <;> simp only [applyStatusToLog, hs] <;> try rfl
  split <;> rfl

/-- `applyStatusToLog` never changes the provider message id. -/
theorem applyStatusToLog_wamid (log : MessageLog) (ev : StatusEvent) (ts : Nat) :
    (applyStatusToLog log ev ts).whatsappMessageId = log.whatsappMessageId := by
  cases hs : ev.status <;> simp only [applyStatusToLog, hs] <;> try rfl
  split <;> rfl

/-- `applyStatusToLog` never changes the campaign reference. -/
theorem applyStatusToLog_campaignId (log : MessageLog) (ev : StatusEvent) (ts : Nat) :
    (applyStatusToLog log ev ts).campaignId = log.campaignId := by
  cases hs : ev.status <;> simp only [applyStatusToLog, hs] <;> try rfl
  split <;> rfl

/-- Applying the same callback's update object twice is the same as applying
it once. -/
theorem applyStatusToLog_idem (log : MessageLog) (ev : StatusEvent) (ts : Nat) :
    applyStatusToLog (applyStatusToLog log ev ts) ev ts = applyStatusToLog log ev ts := by
  cases hs : ev.status <;> simp only [applyStatusToLog, hs] <;> try rfl
  split <;> rfl

/-- Recomputing the aggregate counters reads only the message logs, which it
never changes. -/
theorem updateCampaignStats_messageLogs (st : Store) (cid : Nat) :
    (updateCampaignStats st cid).messageLogs = st.messageLogs := rfl

/-- Recomputing and persisting the counters twice equals doing it once. -/
theorem updateCampaignStats_idem (st : Store) (cid : Nat) :
    updateCampaignStats (updateCampaignStats st cid) cid = updateCampaignStats st cid := by
  show Store.mk _ _ _ _ _ _ = Store.mk _ _ _ _ _ _
  congr 1
  have hstats : ∀ c, setStatsFromLogs (updateCampaignStats st cid) cid c
      = setStatsFromLogs st cid c := fun _ => rfl
  have hcs : (updateCampaignStats st cid).campaigns
      = st.campaigns.map (fun c => if c.id = cid then setStatsFromLogs st cid c else c) := rfl
  simp only [hstats]
  rw [hcs, List.map_map]
  apply List.map_congr_left
  intro c _
  by_cases hcc : c.id = cid
  · have h1 : (fun x => if x.id = cid then setStatsFromLogs st cid x else x) c
        = setStatsFromLogs st cid c := if_pos hcc
    simp only [Function.comp_apply, h1]
    have hid : (setStatsFromLogs st cid c).id = cid := by
      rw [show (setStatsFromLogs st cid c).id = c.id from rfl]
      exact hcc
    rw [if_pos hid]
    rfl
  · simp only [Function.comp_apply, if_neg hcc]

/-- The ledger update performed on a matched callback: the body of
`processStatusUpdate` after the log lookup succeeds, before the campaign
aggregation. -/
def psuLogsUpdated (st : Store) (ev : StatusEvent) (log : MessageLog) : Store :=
  let logs := st.messageLogs.map
    (fun l => if l.id = log.id then applyStatusToLog l ev (ev.timestamp * 1000) else l)
  { st with messageLogs := logs }

/-- The full effect of `processStatusUpdate` on a matched callback. -/
def psuAfter (st : Store) (ev : StatusEvent) (log : MessageLog) : Store :=
  match log.campaignId with
  | some cid => updateCampaignStats (psuLogsUpdated st ev log) cid
  | none => psuLogsUpdated st ev log

/-- Unknown provider message ids are dropped without any store change. -/
theorem processStatusUpdate_none (st : Store) (ev : StatusEvent)
    (h : st.messageLogs.find? (fun l => decide (l.whatsappMessageId = some ev.id)) = none) :
    processStatusUpdate st ev = st := by
  unfold processStatusUpdate
  rw [h]

/-- A matched callback produces exactly the `psuAfter` store. -/
theorem processStatusUpdate_some (st : Store) (ev : StatusEvent) (log : MessageLog)
    (h : st.messageLogs.find? (fun l => decide (l.whatsappMessageId = some ev.id)) = some log) :
    processStatusUpdate st ev = psuAfter st ev log := by
  unfold processStatusUpdate psuAfter psuLogsUpdated
  rw [h]

/-- The message logs after a matched callback. -/
theorem psuAfter_messageLogs (st : Store) (ev : StatusEvent) (log : MessageLog) :
    (psuAfter st ev log).messageLogs = st.messageLogs.map
      (fun l => if l.id = log.id then applyStatusToLog l ev (ev.timestamp * 1000) else l) := by
  unfold psuAfter psuLogsUpdated
  rcases hc : log.campaignId with _ | cid <;> simp only [hc] <;> rfl

/-- Re-applying the per-row update of the same callback is a no-op on the
row list. -/
theorem psu_map_idem (st : Store) (ev : StatusEvent) (log : MessageLog) :
    (st.messageLogs.map
        (fun l => if l.id = log.id then applyStatusToLog l ev (ev.timestamp * 1000) else l)).map
      (fun l => if l.id = log.id then applyStatusToLog l ev (ev.timestamp * 1000) else l)
    = st.messageLogs.map
        (fun l => if l.id = log.id then applyStatusToLog l ev (ev.timestamp * 1000) else l) := by
  rw [List.map_map]
  apply List.map_congr_left
  intro l _
  by_cases hl : l.id = log.id
  · simp only [Function.comp_apply, if_pos hl]
    have hid : (applyStatusToLog l ev (ev.timestamp * 1000)).id = log.id := by
      rw [applyStatusToLog_id]
      exact hl
    rw [if_pos hid, applyStatusToLog_idem]
  · simp only [Function.comp_apply, if_neg hl, if_neg hl]

/-- Re-running the matched-callback body on its own output is a no-op. -/
theorem psuAfter_self (st : Store) (ev : StatusEvent) (log : MessageLog) :
    psuAfter (psuAfter st ev log) ev (applyStatusToLog log ev (ev.timestamp * 1000))
      = psuAfter st ev log := by
  have hlogs2 : (psuLogsUpdated (psuAfter st ev log) ev
        (applyStatusToLog log ev (ev.timestamp * 1000)))
      = psuAfter st ev log := by
    unfold psuLogsUpdated
    have hmap : (psuAfter st ev log).messageLogs.map
        (fun l => if l.id = (applyStatusToLog log ev (ev.timestamp * 1000)).id then
          applyStatusToLog l ev (ev.timestamp * 1000) else l)
        = (psuAfter st ev log).messageLogs := by
      simp only [applyStatusToLog_id]
      rw [psuAfter_messageLogs]
      exact psu_map_idem st ev log
    rw [hmap]
  rcases hc : log.campaignId with _ | cid
  · have e2 : psuAfter (psuAfter st ev log) ev (applyStatusToLog log ev (ev.timestamp * 1000))
        = psuLogsUpdated (psuAfter st ev log) ev
            (applyStatusToLog log ev (ev.timestamp * 1000)) := by
      unfold psuAfter
      rw [applyStatusToLog_campaignId, hc]
    rw [e2, hlogs2]
  · have e2 : psuAfter (psuAfter st ev log) ev (applyStatusToLog log ev (ev.timestamp * 1000))
        = updateCampaignStats (psuLogsUpdated (psuAfter st ev log) ev
            (applyStatusToLog log ev (ev.timestamp * 1000))) cid := by
      unfold psuAfter
      rw [applyStatusToLog_campaignId, hc]
    have e1 : psuAfter st ev log = updateCampaignStats (psuLogsUpdated st ev log) cid := by
      unfold psuAfter
      rw [hc]
    rw [e2, hlogs2, e1, updateCampaignStats_idem]

/-- C2.  Processing the same status-update webhook event twice in
succession yields the same store as processing it once: the same Ledger
Entry state and, since `updateCampaignStats` recomputes the campaign
counters (`sentCount`, `deliveredCount`, `readCount`, `failedCount`)
from the ledger's current state, the same Campaign aggregates. -/
theorem processStatusUpdate_idempotent (st : Store) (ev : StatusEvent) :
    processStatusUpdate (processStatusUpdate st ev) ev = processStatusUpdate st ev := by
  cases hf : st.messageLogs.find?
      (fun l => decide (l.whatsappMessageId = some ev.id)) with
  | none =>
      rw [processStatusUpdate_none st ev hf, processStatusUpdate_none st ev hf]
  | some log =>
      rw [processStatusUpdate_some st ev log hf]
      have hpres : ∀ l : MessageLog,
          (fun x : MessageLog => decide (x.whatsappMessageId = some ev.id))
            ((fun x : MessageLog => if x.id = log.id then
                applyStatusToLog x ev (ev.timestamp * 1000) else x) l)
          = (fun x : MessageLog => decide (x.whatsappMessageId = some ev.id)) l := by
        intro l
        by_cases hl : l.id = log.id
        · simp only [if_pos hl, applyStatusToLog_wamid]
        · simp only [if_neg hl]
      have hfind2 : (psuAfter st ev log).messageLogs.find?
          (fun l => decide (l.whatsappMessageId = some ev.id))
          = some (applyStatusToLog log ev (ev.timestamp * 1000)) := by
        rw [psuAfter_messageLogs,
          find?_map_stable (fun x : MessageLog => decide (x.whatsappMessageId = some ev.id))
            (fun x : MessageLog => if x.id = log.id then
              applyStatusToLog x ev (ev.timestamp * 1000) else x) hpres st.messageLogs,
          hf]
        simp
      rw [processStatusUpdate_some (psuAfter st ev log) ev
        (applyStatusToLog log ev (ev.timestamp * 1000)) hfind2]
      exact psuAfter_self st ev log

/-! ### Fixtures for concrete evaluations -/

/-- An OUTBOUND ledger entry already reconciled to DELIVERED. -/
def fxLogDelivered : MessageLog :=
  { id := 1
    leadId := 7
    campaignId := none
    templateId := some 5
    direction := .OUTBOUND
    whatsappMessageId := some "w1"
    content := .txt none
    status := .DELIVERED
    sentAt := some 1000
    deliveredAt := some 2000
    readAt := none
    failedAt := none
    errorMessage := none }

/-- A store holding only the DELIVERED ledger entry. -/
def fxStoreDelivered : Store :=
  { leads := []
    templates := []
    campaigns := []
    campaignLeads := []
    messageLogs := [fxLogDelivered]
    nextLogId := 2 }

/-- A late-arriving `sent` callback for that entry's provider message id. -/
def fxEvLateSent : StatusEvent :=
  { id := "w1", status := .sent, timestamp := 3, recipientId := "r", errors := [] }

/-- C1.  The Webhook Reconciler has no monotonicity guard: evaluated on a
Ledger Entry whose status is DELIVERED, a late-arriving `sent` callback
for its provider message id overwrites the status back to SENT (and
stamps `sentAt`), instead of leaving the later state in place as the
spec requires. -/
theorem lateSent_regresses_delivered_entry :
    fxStoreDelivered.messageLogs.map MessageLog.status = [.DELIVERED] ∧
    (processStatusUpdate fxStoreDelivered fxEvLateSent).messageLogs.map MessageLog.status
      = [.SENT] ∧
    (processStatusUpdate fxStoreDelivered fxEvLateSent).messageLogs.map MessageLog.sentAt
      = [some 3000] := by
  decide

/-- C7.  The webhook POST route acknowledges every syntactically valid
webhook call with HTTP 200 regardless of the processing outcome, and a
status callback whose provider message id matches no Ledger Entry is
dropped without modifying any stored record. -/
theorem webhook_acks_and_drops_unknown (st : Store) (p : WebhookPayload) (now : Nat)
    (ev : StatusEvent)
    (h : st.messageLogs.find? (fun l => decide (l.whatsappMessageId = some ev.id)) = none) :
    (handleWebhookPost st p now).1 = 200 ∧ processStatusUpdate st ev = st :=
  ⟨rfl, processStatusUpdate_none st ev h⟩

/-- A payload fixture for the webhook witness. -/
def fxPayload : WebhookPayload :=
  { object := "whatsapp_business_account"
    entry := [{ changes := [{ statuses := some [fxEvLateSent], messages := none }] }] }

/-- An event whose provider message id matches nothing in the store. -/
def fxEvUnknown : StatusEvent :=
  { id := "nope", status := .delivered, timestamp := 9, recipientId := "r", errors := [] }

/-- Witness for C7 at a concrete store, payload and unknown-id event. -/
theorem webhook_acks_and_drops_unknown_witness :
    fxStoreDelivered.messageLogs.find?
      (fun l => decide (l.whatsappMessageId = some fxEvUnknown.id)) = none ∧
    ((handleWebhookPost fxStoreDelivered fxPayload 4).1 = 200 ∧
      processStatusUpdate fxStoreDelivered fxEvUnknown = fxStoreDelivered) :=
  ⟨by decide, webhook_acks_and_drops_unknown fxStoreDelivered fxPayload 4 fxEvUnknown (by decide)⟩

/-- The lead update written by the Reconciler on an opt-out match. -/
def optOutLead (l : Lead) (now : Nat) : Lead :=
  { l with optedOut := true, optedOutAt := some now, status := LeadStatus.DO_NOT_CONTACT }

/-- The store after the Reconciler's opt-out branch. -/
def optOutStore (st : Store) (leadId now : Nat) : Store :=
  let newLeads := st.leads.map (fun l => if l.id = leadId then optOutLead l now else l)
  { st with leads := newLeads }

/-- C8.  For an inbound message from a known recipient: when the content
matches the fixed case-insensitive opt-out keyword set, the Reconciler
sets the lead's opt-out flag and timestamp (and DO_NOT_CONTACT status),
touches no other lead and creates no INBOUND Ledger Entry; when it does
not match, it creates exactly one INBOUND Ledger Entry for the message
and leaves every lead — in particular the opt-out flag — unchanged. -/
theorem inbound_optout_and_logging (st : Store) (msg : IncomingMessage) (now : Nat)
    (lead : Lead)
    (hfind : st.leads.find? (fun l => decide (l.phone = msg.fromPhone)) = some lead) :
    (optOutMatch msg = true →
      (processIncomingMessage st msg now).messageLogs = st.messageLogs ∧
      (∃ l ∈ (processIncomingMessage st msg now).leads,
        l.id = lead.id ∧ l.optedOut = true ∧ l.optedOutAt = some now) ∧
      List.Forall₂ (fun orig l =>
          (orig.id = lead.id → l = optOutLead orig now) ∧
          (orig.id ≠ lead.id → l = orig))
        st.leads (processIncomingMessage st msg now).leads) ∧
    (optOutMatch msg = false →
      (processIncomingMessage st msg now).leads = st.leads ∧
      ∃ newLog : MessageLog,
        (processIncomingMessage st msg now).messageLogs = st.messageLogs ++ [newLog] ∧
        newLog.direction = .INBOUND ∧ newLog.leadId = lead.id ∧
        newLog.whatsappMessageId = some msg.id ∧ newLog.status = .DELIVERED ∧
        newLog.deliveredAt = some now) := by
  have hmem : lead ∈ st.leads := List.mem_of_find?_eq_some hfind
  constructor
  · intro hm
    have hb : processIncomingMessage st msg now = optOutStore st lead.id now := by
      unfold processIncomingMessage optOutStore
      rw [hfind]
      simp only [hm, if_true]
      rfl
    rw [hb]
    refine ⟨rfl, ?_, ?_⟩
    · refine ⟨optOutLead lead now, ?_, rfl, rfl, rfl⟩
      have h2 := List.mem_map_of_mem (fun l : Lead =>
        if l.id = lead.id then optOutLead l now else l) hmem
      simpa [optOutStore] using h2
    · show List.Forall₂ _ st.leads (st.leads.map
        (fun l => if l.id = lead.id then optOutLead l now else l))
      rw [List.forall₂_map_right_iff, List.forall₂_same]
      intro x _
      constructor
      · intro hx
        rw [if_pos hx]
      · intro hx
        rw [if_neg hx]
  · intro hm
    have hleads : (processIncomingMessage st msg now).leads = st.leads := by
      unfold processIncomingMessage
      rw [hfind]
      simp only [hm, Bool.false_eq_true, if_false]
    refine ⟨hleads, ?_⟩
    unfold processIncomingMessage
    rw [hfind]
    simp only [hm, Bool.false_eq_true, if_false]
    exact ⟨_, rfl, rfl, rfl, rfl, rfl, rfl⟩

/-- A known recipient for the inbound-message witness. -/
def fxLeadKnown : Lead :=
  { id := 7
    phone := "919900112233"
    name := "Asha"
    businessName := none
    city := none
    source := none
    tags := []
    status := .CONTACTED
    optedOut := false
    optedOutAt := none
    lastContactedAt := none
    notes := none }

/-- A store holding the known recipient. -/
def fxStoreLead : Store :=
  { leads := [fxLeadKnown]
    templates := []
    campaigns := []
    campaignLeads := []
    messageLogs := []
    nextLogId := 1 }

/-- An inbound message matching the opt-out keyword set ("STOP"). -/
def fxMsgStop : IncomingMessage :=
  { fromPhone := "919900112233", id := "m1", timestamp := 1, msgType := "text",
    text := some "Please STOP now" }

/-- Witness for C8 at a concrete store and opt-out message. -/
theorem inbound_optout_and_logging_witness :
    fxStoreLead.leads.find?
      (fun l => decide (l.phone = fxMsgStop.fromPhone)) = some fxLeadKnown ∧
    (optOutMatch fxMsgStop = true →
      (processIncomingMessage fxStoreLead fxMsgStop 9).messageLogs
        = fxStoreLead.messageLogs ∧
      (∃ l ∈ (processIncomingMessage fxStoreLead fxMsgStop 9).leads,
        l.id = fxLeadKnown.id ∧ l.optedOut = true ∧ l.optedOutAt = some 9) ∧
      List.Forall₂ (fun orig l =>
          (orig.id = fxLeadKnown.id → l = optOutLead orig 9) ∧
          (orig.id ≠ fxLeadKnown.id → l = orig))
        fxStoreLead.leads (processIncomingMessage fxStoreLead fxMsgStop 9).leads) ∧
    (optOutMatch fxMsgStop = false →
      (processIncomingMessage fxStoreLead fxMsgStop 9).leads = fxStoreLead.leads ∧
      ∃ newLog : MessageLog,
        (processIncomingMessage fxStoreLead fxMsgStop 9).messageLogs
          = fxStoreLead.messageLogs ++ [newLog] ∧
        newLog.direction = .INBOUND ∧ newLog.leadId = fxLeadKnown.id ∧
        newLog.whatsappMessageId = some fxMsgStop.id ∧ newLog.status = .DELIVERED ∧
        newLog.deliveredAt = some 9) :=
  ⟨by decide, inbound_optout_and_logging fxStoreLead fxMsgStop 9 fxLeadKnown (by decide)⟩

/-- C10.  When `sendCampaignMessage` succeeds for a lead, it sets that
lead's `lastContactedAt` to the send time, promotes the status to
CONTACTED exactly when the prior status was NEW (otherwise the status is
unchanged), changes no other field of that lead, changes no other lead,
and leaves campaigns and enrollment rows untouched. -/
theorem sendCampaignMessage_success_lead_update (st : Store) (leadId cid tid : Nat)
    (hmu : Option String) (wa : WaResult) (now : Nat) (lead : Lead) (tmpl : MessageTemplate)
    (hl : st.leads.find? (fun l => decide (l.id = leadId)) = some lead)
    (ht : st.templates.find? (fun t => decide (t.id = tid)) = some tmpl)
    (hn : tmpl.whatsappTemplateName.isSome = true)
    (ho : lead.optedOut = false)
    (hs : wa.success = true) :
    (sendCampaignMessage st leadId cid tid hmu wa now).1.success = true ∧
    (sendCampaignMessage st leadId cid tid hmu wa now).2.campaigns = st.campaigns ∧
    (sendCampaignMessage st leadId cid tid hmu wa now).2.campaignLeads = st.campaignLeads ∧
    List.Forall₂ (fun orig l =>
        (orig.id ≠ leadId → l = orig) ∧
        (orig.id = leadId →
          l.lastContactedAt = some now ∧
          l.status = (if lead.status = .NEW then .CONTACTED else orig.status) ∧
          l.id = orig.id ∧ l.phone = orig.phone ∧ l.name = orig.name ∧
          l.businessName = orig.businessName ∧ l.city = orig.city ∧
          l.source = orig.source ∧ l.tags = orig.tags ∧
          l.optedOut = orig.optedOut ∧ l.optedOutAt = orig.optedOutAt ∧
          l.notes = orig.notes))
      st.leads (sendCampaignMessage st leadId cid tid hmu wa now).2.leads := by
  have hn2 : tmpl.whatsappTemplateName.isNone = false := by
    cases hwn : tmpl.whatsappTemplateName
    · rw [hwn] at hn
      simp at hn
    · rfl
  unfold sendCampaignMessage
  rw [hl, ht]
  simp only [hn2, Bool.false_eq_true, if_false, ho, hs, if_true]
  refine ⟨trivial, rfl, rfl, ?_⟩
  show List.Forall₂ _ st.leads (st.leads.map (fun l =>
    if l.id = leadId then
      (if lead.status = .NEW then
        { l with lastContactedAt := some now, status := .CONTACTED }
      else { l with lastContactedAt := some now })
    else l))
  rw [List.forall₂_map_right_iff, List.forall₂_same]
  intro x _
  constructor
  · intro hx
    rw [if_neg hx]
  · intro hx
    rw [if_pos hx]
    by_cases hnew : lead.status = .NEW
    · rw [if_pos hnew, if_pos hnew]
      exact ⟨rfl, rfl, rfl, rfl, rfl, rfl, rfl, rfl, rfl, rfl, rfl, rfl⟩
    · rw [if_neg hnew, if_neg hnew]
      exact ⟨rfl, rfl, rfl, rfl, rfl, rfl, rfl, rfl, rfl, rfl, rfl, rfl⟩

/-- A configured, approved WhatsApp template fixture. -/
def fxTmpl : MessageTemplate :=
  { id := 5
    whatsappTemplateName := some "promo"
    bodyText := some "hi"
    headerType := none
    headerContent := none
    language := "en"
    approved := true }

/-- A fresh NEW lead fixture. -/
def fxLeadNew : Lead :=
  { id := 7
    phone := "917"
    name := "Ravi"
    businessName := none
    city := none
    source := none
    tags := []
    status := .NEW
    optedOut := false
    optedOutAt := none
    lastContactedAt := none
    notes := none }

/-- A second eligible lead fixture. -/
def fxLeadOther : Lead :=
  { fxLeadNew with id := 8, phone := "918", name := "Meena" }

/-- A store with one NEW lead and the configured template. -/
def fxStoreSend : Store :=
  { leads := [fxLeadNew]
    templates := [fxTmpl]
    campaigns := []
    campaignLeads := []
    messageLogs := []
    nextLogId := 1 }

/-- A successful client response. -/
def fxWaOk : WaResult :=
  { success := true, messageId := some "wm1", error := none, errorCode := none }

/-- Witness for C10 at a concrete store, lead, template and send result. -/
theorem sendCampaignMessage_success_lead_update_witness :
    fxStoreSend.leads.find? (fun l => decide (l.id = 7)) = some fxLeadNew ∧
    (sendCampaignMessage fxStoreSend 7 1 5 none fxWaOk 77).1.success = true :=
  ⟨by decide,
    (sendCampaignMessage_success_lead_update fxStoreSend 7 1 5 none fxWaOk 77 fxLeadNew fxTmpl
      (by decide) (by decide) (by decide) (by decide) (by decide)).1⟩

/-- On a successful start, the enrollment table is the old one plus the
freshly materialized PENDING rows. -/
theorem startCampaign_ok_campaignLeads (st : Store) (cid now : Nat)
    (campaign : Campaign) (n : Nat)
    (hc : st.campaigns.find? (fun x => decide (x.id = cid)) = some campaign)
    (hok : (startCampaign st cid now).1 = .ok n) :
    (startCampaign st cid now).2.campaignLeads
      = st.campaignLeads ++ startNewRows st cid campaign := by
  unfold startCampaign at hok ⊢
  rw [hc] at hok ⊢
  dsimp only at hok ⊢
  by_cases h1 : campaign.status = .RUNNING
  · rw [if_pos h1] at hok
    exact absurd hok (by simp)
  rw [if_neg h1] at hok ⊢
  by_cases h2 : campaign.status = .COMPLETED
  · rw [if_pos h2] at hok
    exact absurd hok (by simp)
  rw [if_neg h2] at hok ⊢
  by_cases h3 : (startEligibleLeads st campaign).isEmpty = true
  · rw [if_pos h3] at hok
    exact absurd hok (by simp)
  rw [if_neg h3]
  rfl

/-- C5.  With dedup-by-template enabled (`skipDuplicateTemplate = true`,
the stored default), a successful start never materializes an enrollment
row for a recipient who already has an OUTBOUND Ledger Entry for the
campaign's template with status other than FAILED: the enrollment rows
for that (campaign, recipient) pair are exactly the ones that existed
before the start. -/
theorem startCampaign_dedup_excludes (st : Store) (cid now : Nat) (campaign : Campaign)
    (log : MessageLog) (n : Nat)
    (hc : st.campaigns.find? (fun x => decide (x.id = cid)) = some campaign)
    (hflag : campaign.targetFilters.skipDuplicateTemplate = true)
    (hmem : log ∈ st.messageLogs)
    (htid : log.templateId = some campaign.templateId)
    (hdir : log.direction = .OUTBOUND)
    (hst : log.status ≠ .FAILED)
    (hok : (startCampaign st cid now).1 = .ok n) :
    (startCampaign st cid now).2.campaignLeads.filter
        (fun r => decide (r.campaignId = cid ∧ r.leadId = log.leadId))
      = st.campaignLeads.filter
        (fun r => decide (r.campaignId = cid ∧ r.leadId = log.leadId)) := by
  rw [startCampaign_ok_campaignLeads st cid now campaign n hc hok, List.filter_append]
  have hids : log.leadId ∈ dedupLeadIds st campaign.templateId := by
    unfold dedupLeadIds
    refine List.mem_map_of_mem _ (List.mem_filter.mpr ⟨hmem, ?_⟩)
    simp [htid, hdir, hst]
  have hemp : (dedupLeadIds st campaign.templateId).isEmpty = false := by
    have hne := List.ne_nil_of_mem hids
    cases hE : (dedupLeadIds st campaign.templateId).isEmpty
    · rfl
    · exact absurd (List.isEmpty_iff.mp hE) hne
  have hrows : (startNewRows st cid campaign).filter
      (fun r => decide (r.campaignId = cid ∧ r.leadId = log.leadId)) = [] := by
    rw [List.filter_eq_nil_iff]
    intro r hr
    unfold startNewRows at hr
    rcases List.mem_map.mp hr with ⟨l, hl, hrl⟩
    have hl1 : l ∈ startEligibleLeads st campaign := (List.mem_filter.mp hl).1
    unfold startEligibleLeads at hl1
    dsimp only at hl1
    rw [hflag] at hl1
    simp only [if_true, hemp, Bool.false_eq_true, if_false] at hl1
    have hpred := (List.mem_filter.mp hl1).2
    simp only [Bool.not_eq_true', List.any_eq_false] at hpred
    have hne2 : l.id ≠ log.leadId := by
      intro hEq
      exact hpred log.leadId hids (by simp [hEq])
    rw [← hrl]
    simp only [decide_eq_true_eq, not_and]
    intro _
    exact hne2
  rw [hrows, List.append_nil]

/-- Target filters selecting leads 7 and 8 explicitly, dedup on. -/
def fxTf : TargetFilters :=
  { leadIds := some [7, 8]
    statusIn := none
    sourceIn := none
    tagsHasSome := none
    citiesIn := none
    skipDuplicateTemplate := true
    headerMediaUrl := none
    sendingSpeed := none }

/-- A campaign fixture over template 5 with the given status. -/
def fxCampaign (s : CampaignStatus) : Campaign :=
  { id := 1
    status := s
    templateId := 5
    targetFilters := fxTf
    totalLeads := 0
    sentCount := 0
    deliveredCount := 0
    readCount := 0
    failedCount := 0
    startedAt := none
    completedAt := none }

/-- A prior OUTBOUND SENT ledger entry for lead 7 and template 5 (from an
earlier campaign). -/
def fxLogSent7 : MessageLog :=
  { id := 1
    leadId := 7
    campaignId := some 9
    templateId := some 5
    direction := .OUTBOUND
    whatsappMessageId := some "wOld"
    content := .txt none
    status := .SENT
    sentAt := some 10
    deliveredAt := none
    readAt := none
    failedAt := none
    errorMessage := none }

/-- A store ready to start campaign 1 (whose status is `s`): two eligible
leads, lead 7 already holding a SENT entry for template 5. -/
def fxStoreStart (s : CampaignStatus) : Store :=
  { leads := [fxLeadNew, fxLeadOther]
    templates := [fxTmpl]
    campaigns := [fxCampaign s]
    campaignLeads := []
    messageLogs := [fxLogSent7]
    nextLogId := 2 }

/-- Witness for C5: starting the DRAFT campaign enrolls only lead 8; no
row is materialized for lead 7, who already received template 5. -/
theorem startCampaign_dedup_excludes_witness :
    (startCampaign (fxStoreStart .DRAFT) 1 100).1 = .ok 1 ∧
    (startCampaign (fxStoreStart .DRAFT) 1 100).2.campaignLeads.filter
        (fun r => decide (r.campaignId = 1 ∧ r.leadId = fxLogSent7.leadId))
      = (fxStoreStart .DRAFT).campaignLeads.filter
        (fun r => decide (r.campaignId = 1 ∧ r.leadId = fxLogSent7.leadId)) :=
  ⟨rfl,
    startCampaign_dedup_excludes (fxStoreStart .DRAFT) 1 100 (fxCampaign .DRAFT) fxLogSent7 1
      (by decide) (by decide) (by decide) (by decide) (by decide) (by decide) rfl⟩

/-- C3 counterexample: campaign 1 is CANCELLED — outside the claim's
allowed start set {DRAFT, SCHEDULED, PAUSED} — yet `start` succeeds
(the guard only rejects RUNNING and COMPLETED) and moves the status
along the unlisted edge CANCELLED to RUNNING. -/
theorem start_succeeds_on_cancelled_campaign :
    (fxCampaign .CANCELLED).status = .CANCELLED ∧
    (fxCampaign .CANCELLED).status ≠ .DRAFT ∧
    (fxCampaign .CANCELLED).status ≠ .SCHEDULED ∧
    (fxCampaign .CANCELLED).status ≠ .PAUSED ∧
    (startCampaign (fxStoreStart .CANCELLED) 1 100).1 = .ok 1 ∧
    campaignStatusFor (startCampaign (fxStoreStart .CANCELLED) 1 100).2 1
      = some .RUNNING := by
  refine ⟨rfl, ?_, ?_, ?_, rfl, rfl⟩ <;> decide

/-- Updating a campaign row by id with an id-preserving function makes the
row's status readable through `campaignStatusFor`. -/
theorem campaignStatusFor_setCampaign (st : Store) (cid : Nat) (f : Campaign → Campaign)
    (c : Campaign)
    (hc : st.campaigns.find? (fun x => decide (x.id = cid)) = some c)
    (hf : ∀ x, (f x).id = x.id) :
    campaignStatusFor (setCampaign st cid f) cid = some (f c).status := by
  have hpres : ∀ a : Campaign,
      (fun x : Campaign => decide (x.id = cid)) ((fun x => if x.id = cid then f x else x) a)
      = (fun x : Campaign => decide (x.id = cid)) a := by
    intro a
    by_cases ha : a.id = cid
    · simp [ha, hf a]
    · simp [ha]
  have hcid : c.id = cid := by
    have h2 := List.find?_some hc
    simpa using h2
  unfold campaignStatusFor setCampaign
  rw [find?_map_stable (fun x : Campaign => decide (x.id = cid))
    (fun x => if x.id = cid then f x else x) hpres st.campaigns, hc]
  simp only [Option.map]
  rw [if_pos hcid]

/-- A successful start leaves the campaign RUNNING. -/
theorem startCampaign_ok_status (st : Store) (cid now : Nat) (campaign : Campaign) (n : Nat)
    (hc : st.campaigns.find? (fun x => decide (x.id = cid)) = some campaign)
    (hok : (startCampaign st cid now).1 = .ok n) :
    campaignStatusFor (startCampaign st cid now).2 cid = some .RUNNING := by
  unfold startCampaign at hok ⊢
  rw [hc] at hok ⊢
  dsimp only at hok ⊢
  by_cases h1 : campaign.status = .RUNNING
  · rw [if_pos h1] at hok
    exact absurd hok (by simp)
  rw [if_neg h1] at hok ⊢
  by_cases h2 : campaign.status = .COMPLETED
  · rw [if_pos h2] at hok
    exact absurd hok (by simp)
  rw [if_neg h2] at hok ⊢
  by_cases h3 : (startEligibleLeads st campaign).isEmpty = true
  · rw [if_pos h3] at hok
    exact absurd hok (by simp)
  rw [if_neg h3]
  exact campaignStatusFor_setCampaign _ cid _ campaign hc (fun x => rfl)

/-- The guards of start, pause, resume and retry-failed: errors leave the
store untouched and successes land on the edges the code implements. -/
theorem campaign_ops_edges (st : Store) (cid now : Nat) (c : Campaign)
    (hc : st.campaigns.find? (fun x => decide (x.id = cid)) = some c) :
    ((c.status = .RUNNING ∨ c.status = .COMPLETED) →
      startCampaign st cid now = (.error .invalidState, st)) ∧
    (∀ n, (startCampaign st cid now).1 = .ok n →
      (c.status ≠ .RUNNING ∧ c.status ≠ .COMPLETED) ∧
      campaignStatusFor (startCampaign st cid now).2 cid = some .RUNNING) ∧
    (c.status ≠ .RUNNING → pauseCampaign st cid = (.error .invalidState, st)) ∧
    (c.status = .RUNNING →
      (pauseCampaign st cid).1 = .ok () ∧
      campaignStatusFor (pauseCampaign st cid).2 cid = some .PAUSED) ∧
    (c.status ≠ .PAUSED → resumeCampaign st cid = (.error .invalidState, st)) ∧
    (c.status = .PAUSED →
      (resumeCampaign st cid).1 = .ok () ∧
      campaignStatusFor (resumeCampaign st cid).2 cid = some .RUNNING) ∧
    ((c.status ≠ .RUNNING ∧ c.status ≠ .PAUSED ∧ c.status ≠ .COMPLETED) →
      retryFailedCampaign st cid = (.error .invalidState, st)) ∧
    (∀ n, (retryFailedCampaign st cid).1 = .ok n →
      (c.status = .RUNNING ∨ c.status = .PAUSED ∨ c.status = .COMPLETED) ∧
      campaignStatusFor (retryFailedCampaign st cid).2 cid = some .RUNNING) := by
  refine ⟨?_, ?_, ?_, ?_, ?_, ?_, ?_, ?_⟩
  · rintro (h | h) <;> unfold startCampaign <;> rw [hc] <;> dsimp only
    · rw [if_pos h]
    · rw [if_neg (by simp [h]), if_pos h]
  · intro n hok
    refine ⟨⟨?_, ?_⟩, startCampaign_ok_status st cid now c n hc hok⟩
    · intro h1
      unfold startCampaign at hok
      rw [hc] at hok
      dsimp only at hok
      rw [if_pos h1] at hok
      exact absurd hok (by simp)
    · intro h2
      unfold startCampaign at hok
      rw [hc] at hok
      dsimp only at hok
      rw [if_neg (by simp [h2]), if_pos h2] at hok
      exact absurd hok (by simp)
  · intro h
    unfold pauseCampaign
    rw [hc]
    dsimp only
    rw [if_pos h]
  · intro h
    unfold pauseCampaign
    rw [hc]
    dsimp only
    rw [if_neg (by simp [h])]
    exact ⟨rfl, campaignStatusFor_setCampaign st cid _ c hc (fun x => rfl)⟩
  · intro h
    unfold resumeCampaign
    rw [hc]
    dsimp only
    rw [if_pos h]
  · intro h
    unfold resumeCampaign
    rw [hc]
    dsimp only
    rw [if_neg (by simp [h])]
    exact ⟨rfl, campaignStatusFor_setCampaign st cid _ c hc (fun x => rfl)⟩
  · intro h
    unfold retryFailedCampaign
    rw [hc]
    dsimp only
    rw [if_pos h]
  · intro n hok
    by_cases hg : c.status ≠ .RUNNING ∧ c.status ≠ .PAUSED ∧ c.status ≠ .COMPLETED
    · unfold retryFailedCampaign at hok
      rw [hc] at hok
      dsimp only at hok
      rw [if_pos hg] at hok
      exact absurd hok (by simp)
    · have hmem : c.status = .RUNNING ∨ c.status = .PAUSED ∨ c.status = .COMPLETED := by
        tauto
      refine ⟨hmem, ?_⟩
      unfold retryFailedCampaign at hok ⊢
      rw [hc] at hok ⊢
      dsimp only at hok ⊢
      rw [if_neg hg] at hok ⊢
      by_cases hE : (((st.campaignLeads.filter (fun r =>
          decide (r.campaignId = cid ∧ r.status = .FAILED) &&
            st.leads.any (fun l =>
              decide (l.id = r.leadId) && notDncRejected l && !l.optedOut))).map
          CampaignLead.leadId).isEmpty) = true
      · rw [if_pos hE] at hok
        exact absurd hok (by simp)
      · rw [if_neg hE]
        exact campaignStatusFor_setCampaign _ cid _ c hc (fun x => rfl)

/-- Witness for the amended C3 theorem at a concrete DRAFT campaign. -/
theorem campaign_ops_edges_witness :
    (fxStoreStart .DRAFT).campaigns.find? (fun x => decide (x.id = 1))
      = some (fxCampaign .DRAFT) ∧
    pauseCampaign (fxStoreStart .DRAFT) 1 = (.error .invalidState, fxStoreStart .DRAFT) :=
  ⟨by decide,
    (campaign_ops_edges (fxStoreStart .DRAFT) 1 100 (fxCampaign .DRAFT)
      (by decide)).2.2.1 (by decide)⟩

/-- A provider throttle response (error code 131049). -/
def fxWaThrottle : WaResult :=
  { success := false, messageId := none, error := some "rate limited", errorCode := some 131049 }

/-- A lead fixture with the given id. -/
def fxLeadId (i : Nat) : Lead :=
  { fxLeadNew with id := i, phone := toString i }

/-- A RUNNING campaign over five PENDING enrollments, ready to dispatch. -/
def fxStoreRun : Store :=
  { leads := [fxLeadId 1, fxLeadId 2, fxLeadId 3, fxLeadId 4, fxLeadId 5]
    templates := [fxTmpl]
    campaigns := [fxCampaign .RUNNING]
    campaignLeads := [
      { campaignId := 1, leadId := 1, status := .PENDING },
      { campaignId := 1, leadId := 2, status := .PENDING },
      { campaignId := 1, leadId := 3, status := .PENDING },
      { campaignId := 1, leadId := 4, status := .PENDING },
      { campaignId := 1, leadId := 5, status := .PENDING }]
    messageLogs := []
    nextLogId := 10 }

/-- `sendCampaignMessage` never touches the enrollment table. -/
theorem sendCampaignMessage_campaignLeads (st : Store) (leadId cid tid : Nat)
    (hmu : Option String) (wa : WaResult) (now : Nat) :
    (sendCampaignMessage st leadId cid tid hmu wa now).2.campaignLeads = st.campaignLeads := by
  unfold sendCampaignMessage
  split
  · rfl
  split
  · rfl
  split
  · rfl
  split
  · rfl
  dsimp only
  split
  · rfl
  split
  · rfl
  · rfl

/-- `sendCampaignMessage` never touches the campaigns table. -/
theorem sendCampaignMessage_campaigns (st : Store) (leadId cid tid : Nat)
    (hmu : Option String) (wa : WaResult) (now : Nat) :
    (sendCampaignMessage st leadId cid tid hmu wa now).2.campaigns = st.campaigns := by
  unfold sendCampaignMessage
  split
  · rfl
  split
  · rfl
  split
  · rfl
  split
  · rfl
  dsimp only
  split
  · rfl
  split
  · rfl
  · rfl

/-- The scripted send never touches the enrollment table. -/
theorem sendCampaignMessageS_campaignLeads (st : Store) (leadId cid tid : Nat)
    (hmu : Option String) (script : List WaResult) (now : Nat) :
    (sendCampaignMessageS st leadId cid tid hmu script now).2.1.campaignLeads
      = st.campaignLeads := by
  unfold sendCampaignMessageS
  split
  · exact sendCampaignMessage_campaignLeads ..
  · exact sendCampaignMessage_campaignLeads ..

/-- The scripted send consumes at most one script entry. -/
theorem sendCampaignMessageS_script (st : Store) (leadId cid tid : Nat)
    (hmu : Option String) (script : List WaResult) (now : Nat) :
    (sendCampaignMessageS st leadId cid tid hmu script now).2.2 = script ∨
    (sendCampaignMessageS st leadId cid tid hmu script now).2.2 = script.tail := by
  unfold sendCampaignMessageS
  split
  · exact Or.inr rfl
  · exact Or.inl rfl

/-- The write relation the dispatch loop respects on each enrollment row:
either the row is untouched or only its status was set, to SENT or
FAILED. -/
def rowWrite (orig r : CampaignLead) : Prop :=
  r = orig ∨ (r.campaignId = orig.campaignId ∧ r.leadId = orig.leadId ∧
    (r.status = .SENT ∨ r.status = .FAILED))

/-- `rowWrite` composes. -/
theorem rowWrite_comp {a b c : CampaignLead} (h1 : rowWrite a b) (h2 : rowWrite b c) :
    rowWrite a c := by
  rcases h1 with rfl | ⟨p1, p2, p3⟩
  · exact h2
  · rcases h2 with rfl | ⟨q1, q2, q3⟩
    · exact Or.inr ⟨p1, p2, p3⟩
    · exact Or.inr ⟨q1.trans p1, q2.trans p2, q3⟩

/-- `rowWrite` holds pointwise on identical lists. -/
theorem forall₂_rowWrite_refl (xs : List CampaignLead) :
    List.Forall₂ rowWrite xs xs :=
  List.forall₂_same.mpr (fun _ _ => Or.inl rfl)

/-- Composition lifted to lists. -/
theorem forall₂_rowWrite_comp {xs ys zs : List CampaignLead}
    (h1 : List.Forall₂ rowWrite xs ys) (h2 : List.Forall₂ rowWrite ys zs) :
    List.Forall₂ rowWrite xs zs := by
  induction h1 generalizing zs with
  | nil =>
      cases h2
      exact .nil
  | cons hxy _ ih =>
      cases h2 with
      | cons hyz h2rest => exact .cons (rowWrite_comp hxy hyz) (ih h2rest)

/-- Setting a row's status to SENT or FAILED respects `rowWrite`. -/
theorem setRowStatus_rowWrite (st : Store) (cid leadId : Nat) (s : CampaignLeadStatus)
    (hs : s = .SENT ∨ s = .FAILED) :
    List.Forall₂ rowWrite st.campaignLeads (setRowStatus st cid leadId s).campaignLeads := by
  unfold setRowStatus
  show List.Forall₂ rowWrite st.campaignLeads (st.campaignLeads.map _)
  rw [List.forall₂_map_right_iff, List.forall₂_same]
  intro x _
  by_cases hx : x.campaignId = cid ∧ x.leadId = leadId
  · rw [if_pos hx]
    exact Or.inr ⟨rfl, rfl, hs⟩
  · rw [if_neg hx]
    exact Or.inl rfl

/-- The completion check touches only the campaign row. -/
theorem pcmFinalize_campaignLeads (st : Store) (cid sent failed now : Nat) :
    (pcmFinalize st cid sent failed now).campaignLeads = st.campaignLeads := by
  unfold pcmFinalize
  split
  · rfl
  split
  · rfl
  · rfl

/-- The send-with-retry block never touches the enrollment table. -/
theorem pcmSendWithRetry_campaignLeads (st : Store) (leadId cid tid : Nat)
    (hmu : Option String) (script : List WaResult) (now : Nat) :
    (pcmSendWithRetry st leadId cid tid hmu script now).2.1.campaignLeads
      = st.campaignLeads := by
  unfold pcmSendWithRetry
  dsimp only
  split
  · exact sendCampaignMessageS_campaignLeads ..
  · rw [sendCampaignMessageS_campaignLeads, sendCampaignMessageS_campaignLeads]

/-- The send-with-retry block consumes at most two script entries. -/
theorem pcmSendWithRetry_script (st : Store) (leadId cid tid : Nat)
    (hmu : Option String) (script : List WaResult) (now : Nat) :
    (pcmSendWithRetry st leadId cid tid hmu script now).2.2 = script ∨
    (pcmSendWithRetry st leadId cid tid hmu script now).2.2 = script.tail ∨
    (pcmSendWithRetry st leadId cid tid hmu script now).2.2 = script.tail.tail := by
  unfold pcmSendWithRetry
  dsimp only
  split
  · rcases sendCampaignMessageS_script st leadId cid tid hmu script now with h | h
    · exact Or.inl h
    · exact Or.inr (Or.inl h)
  · rcases sendCampaignMessageS_script
        (sendCampaignMessageS st leadId cid tid hmu script now).2.1 leadId cid tid hmu
        (sendCampaignMessageS st leadId cid tid hmu script now).2.2 now with h | h <;>
      rcases sendCampaignMessageS_script st leadId cid tid hmu script now with g | g
    · rw [h, g]
      exact Or.inl rfl
    · rw [h, g]
      exact Or.inr (Or.inl rfl)
    · rw [h, g]
      exact Or.inr (Or.inl rfl)
    · rw [h, g]
      exact Or.inr (Or.inr rfl)

/-- One loop iteration writes enrollment rows only to SENT or FAILED. -/
theorem pcmStep_rowWrite (cid tid : Nat) (hmu : Option String) (dl : Nat) (st : Store)
    (leadId : Nat) (script : List WaResult) (sent failed consec now : Nat) :
    List.Forall₂ rowWrite st.campaignLeads
      (pcmStep cid tid hmu dl st leadId script sent failed consec now).store.campaignLeads := by
  unfold pcmStep
  split
  · exact forall₂_rowWrite_refl _
  split
  · exact forall₂_rowWrite_refl _
  split
  · exact forall₂_rowWrite_refl _
  dsimp only
  have h2 : (pcmSendWithRetry st leadId cid tid hmu script now).2.1.campaignLeads
      = st.campaignLeads := pcmSendWithRetry_campaignLeads ..
  have hmain : ∀ s : CampaignLeadStatus, (s = .SENT ∨ s = .FAILED) →
      List.Forall₂ rowWrite st.campaignLeads
        (setRowStatus (pcmSendWithRetry st leadId cid tid hmu script now).2.1 cid leadId
          s).campaignLeads := by
    intro s hs
    have h3 := setRowStatus_rowWrite
      (pcmSendWithRetry st leadId cid tid hmu script now).2.1 cid leadId s hs
    rw [h2] at h3
    exact h3
  split
  next hsucc =>
    exact hmain .SENT (Or.inl rfl)
  next hfail =>
    split
    · split
      · exact hmain .FAILED (Or.inr rfl)
      · exact hmain .FAILED (Or.inr rfl)
    · exact hmain .FAILED (Or.inr rfl)

/-- The whole dispatch iteration writes enrollment rows only to SENT or
FAILED. -/
theorem pcmLoop_rowWrite (cid tid : Nat) (hmu : Option String) (dl now : Nat) :
    ∀ (leadIds : List Nat) (st : Store) (script : List WaResult) (sent failed consec : Nat),
    List.Forall₂ rowWrite st.campaignLeads
      (pcmLoop cid tid hmu dl now leadIds st script sent failed consec).1.campaignLeads := by
  intro leadIds
  induction leadIds with
  | nil =>
      intro st script sent failed consec
      show List.Forall₂ rowWrite st.campaignLeads
        (pcmFinalize st cid sent failed now).campaignLeads
      rw [pcmFinalize_campaignLeads]
      exact forall₂_rowWrite_refl _
  | cons leadId rest ih =>
      intro st script sent failed consec
      have hstep := pcmStep_rowWrite cid tid hmu dl st leadId script sent failed consec now
      show List.Forall₂ rowWrite st.campaignLeads
        (match pcmStep cid tid hmu dl st leadId script sent failed consec now with
          | .brk st2 script2 sent2 failed2 =>
              (pcmFinalize st2 cid sent2 failed2 now, script2)
          | .cont st2 script2 sent2 failed2 consec2 =>
              pcmLoop cid tid hmu dl now rest st2 script2 sent2 failed2 consec2).1.campaignLeads
      cases hres : pcmStep cid tid hmu dl st leadId script sent failed consec now with
      | brk st2 script2 sent2 failed2 =>
          rw [hres] at hstep
          simp only [pcmFinalize_campaignLeads]
          exact hstep
      | cont st2 script2 sent2 failed2 consec2 =>
          rw [hres] at hstep
          exact forall₂_rowWrite_comp hstep (ih st2 script2 sent2 failed2 consec2)

/-- The write relation of the retry-failed reset: a row is untouched or
was FAILED and is reset to PENDING. -/
def retryOk (orig r : CampaignLead) : Prop :=
  r = orig ∨ (orig.status = .FAILED ∧ r = { orig with status := .PENDING })

/-- The retry-failed route only resets FAILED rows, to PENDING. -/
theorem retryFailed_rows (st : Store) (cid : Nat) :
    List.Forall₂ retryOk st.campaignLeads (retryFailedCampaign st cid).2.campaignLeads := by
  have hrefl : List.Forall₂ retryOk st.campaignLeads st.campaignLeads :=
    List.forall₂_same.mpr (fun _ _ => Or.inl rfl)
  unfold retryFailedCampaign
  split
  · exact hrefl
  split
  · exact hrefl
  dsimp only
  split
  · exact hrefl
  show List.Forall₂ retryOk st.campaignLeads (st.campaignLeads.map _)
  rw [List.forall₂_map_right_iff, List.forall₂_same]
  intro r _
  split
  next hcond =>
    have h1 : r.status = .FAILED := by
      have h2 := hcond
      simp only [Bool.and_eq_true, decide_eq_true_eq] at h2
      exact h2.1.2
    exact Or.inr ⟨h1, rfl⟩
  next => exact Or.inl rfl

/-- The queue worker writes enrollment rows only to SENT or FAILED. -/
theorem worker_rows (st : Store) (cid leadId tid : Nat) (wa : WaResult) (now : Nat) :
    List.Forall₂ rowWrite st.campaignLeads
      (processWorkerJob st cid leadId tid wa now).campaignLeads := by
  unfold processWorkerJob workerMarkSent
  dsimp only
  have h1 := setRowStatus_rowWrite st cid leadId .SENT (Or.inl rfl)
  have h2 : (sendCampaignMessage (setRowStatus st cid leadId .SENT) leadId cid tid none
        wa now).2.campaignLeads
      = (setRowStatus st cid leadId .SENT).campaignLeads :=
    sendCampaignMessage_campaignLeads ..
  split
  · show List.Forall₂ rowWrite st.campaignLeads
      (sendCampaignMessage (setRowStatus st cid leadId .SENT) leadId cid tid none
        wa now).2.campaignLeads
    rw [h2]
    exact h1
  · have h3 := setRowStatus_rowWrite
      (sendCampaignMessage (setRowStatus st cid leadId .SENT) leadId cid tid none wa now).2
      cid leadId .FAILED (Or.inr rfl)
    rw [h2] at h3
    exact forall₂_rowWrite_comp h1 h3

/-- C9 (amended).  Enrollment-row writes by the engine: the in-process
dispatch loop only ever writes a row's status to SENT or FAILED (leaving
every other field and every other row unchanged); the retry-failed route
additionally moves FAILED rows back to PENDING; and the queue worker also
writes only SENT (before the send) and FAILED (after a failed send). -/
theorem enrollment_status_writes :
    (∀ (st : Store) (cid tid : Nat) (leadIds : List Nat) (hmu : Option String)
        (speed : String) (script : List WaResult) (now : Nat),
      List.Forall₂ rowWrite st.campaignLeads
        (processCampaignMessages st cid tid leadIds hmu speed script now).1.campaignLeads) ∧
    (∀ (st : Store) (cid : Nat),
      List.Forall₂ retryOk st.campaignLeads (retryFailedCampaign st cid).2.campaignLeads) ∧
    (∀ (st : Store) (cid leadId tid : Nat) (wa : WaResult) (now : Nat),
      List.Forall₂ rowWrite st.campaignLeads
        (processWorkerJob st cid leadId tid wa now).campaignLeads) := by
  refine ⟨?_, retryFailed_rows, worker_rows⟩
  intro st cid tid leadIds hmu speed script now
  unfold processCampaignMessages
  exact pcmLoop_rowWrite ..

/-- A store where campaign 1 is PAUSED and lead 7's enrollment FAILED. -/
def fxStoreRetry : Store :=
  { leads := [{ fxLeadNew with status := .CONTACTED }]
    templates := [fxTmpl]
    campaigns := [fxCampaign .PAUSED]
    campaignLeads := [{ campaignId := 1, leadId := 7, status := .FAILED }]
    messageLogs := []
    nextLogId := 1 }

/-- A store where campaign 1 is RUNNING and lead 7's enrollment PENDING. -/
def fxStoreWork : Store :=
  { leads := [fxLeadNew]
    templates := [fxTmpl]
    campaigns := [fxCampaign .RUNNING]
    campaignLeads := [{ campaignId := 1, leadId := 7, status := .PENDING }]
    messageLogs := []
    nextLogId := 1 }

/-- A generic non-throttle send failure. -/
def fxWaFail : WaResult :=
  { success := false, messageId := none, error := some "boom", errorCode := none }

/-- C9 counterexample: the retry-failed route moves lead 7's enrollment
FAILED to PENDING (a move other than PENDING to SENT/FAILED), and the
queue worker first marks the row SENT and then — after the failed send —
overwrites it to FAILED, a transition out of SENT. -/
theorem enrollment_regression_on_code :
    rowStatusFor fxStoreRetry 1 7 = some .FAILED ∧
    (retryFailedCampaign fxStoreRetry 1).1 = .ok 1 ∧
    rowStatusFor (retryFailedCampaign fxStoreRetry 1).2 1 7 = some .PENDING ∧
    rowStatusFor (workerMarkSent fxStoreWork 1 7) 1 7 = some .SENT ∧
    rowStatusFor (processWorkerJob fxStoreWork 1 7 5 fxWaFail 50) 1 7 = some .FAILED :=
  ⟨by decide, rfl, by decide, by decide, by decide⟩

/-- Dispatch run tripping the circuit breaker: recipients 1-3 each throttle
twice (six 131049 results), recipients 4-5 would succeed. -/
def fxRunBreak : Store × List WaResult :=
  processCampaignMessages fxStoreRun 1 5 [1, 2, 3, 4, 5] none "normal"
    [fxWaThrottle, fxWaThrottle, fxWaThrottle, fxWaThrottle, fxWaThrottle, fxWaThrottle,
      fxWaOk, fxWaOk] 100

/-- Dispatch run where a success interrupts the throttle streak. -/
def fxRunReset : Store × List WaResult :=
  processCampaignMessages fxStoreRun 1 5 [1, 2, 3, 4] none "normal"
    [fxWaThrottle, fxWaThrottle, fxWaOk, fxWaThrottle, fxWaThrottle, fxWaThrottle,
      fxWaThrottle] 100

/-- C6 counterexample: the retry wait `min(2 x base, 600000 ms)` is not
strictly longer than the pacing delay for every profile — it equals the
base delay for `very_slow` (600 s) and is shorter than the base delay for
`warmup` (600 s versus 1800 s). -/
theorem retry_wait_not_strictly_longer :
    retryWaitMs (speedConfigFor "very_slow").delayMs = 600000 ∧
    (speedConfigFor "very_slow").delayMs = 600000 ∧
    ¬ retryWaitMs (speedConfigFor "very_slow").delayMs
        > (speedConfigFor "very_slow").delayMs ∧
    retryWaitMs (speedConfigFor "warmup").delayMs = 600000 ∧
    (speedConfigFor "warmup").delayMs = 1800000 ∧
    retryWaitMs (speedConfigFor "warmup").delayMs
        < (speedConfigFor "warmup").delayMs := by
  decide

/-- Dispatch run where recipient 1 exhausts its single retry and the loop
moves on to recipient 2. -/
def fxRunRetryFail : Store × List WaResult :=
  processCampaignMessages fxStoreRun 1 5 [1, 2] none "fast"
    [fxWaThrottle, fxWaThrottle, fxWaOk] 100

/-- C6 (amended).  On a 131049 throttle the loop retries the same
recipient at most once — at most two script entries (client calls) are
consumed per recipient — waiting `retryWaitMs = min(2 x base, 600000)`
milliseconds before the retry, which is strictly longer than the pacing
delay for the fast/normal/slow profiles but equal to it for very_slow
and shorter for warmup; a recipient whose retry also throttles is
recorded FAILED and the loop continues with the next recipient. -/
theorem throttle_retry_bounded_and_fails :
    (retryWaitMs (speedConfigFor "fast").delayMs > (speedConfigFor "fast").delayMs ∧
     retryWaitMs (speedConfigFor "normal").delayMs > (speedConfigFor "normal").delayMs ∧
     retryWaitMs (speedConfigFor "slow").delayMs > (speedConfigFor "slow").delayMs ∧
     retryWaitMs (speedConfigFor "very_slow").delayMs = (speedConfigFor "very_slow").delayMs ∧
     retryWaitMs (speedConfigFor "warmup").delayMs < (speedConfigFor "warmup").delayMs) ∧
    (∀ (st : Store) (leadId cid tid : Nat) (hmu : Option String) (script : List WaResult)
        (now : Nat),
      (pcmSendWithRetry st leadId cid tid hmu script now).2.2 = script ∨
      (pcmSendWithRetry st leadId cid tid hmu script now).2.2 = script.tail ∨
      (pcmSendWithRetry st leadId cid tid hmu script now).2.2 = script.tail.tail) ∧
    (rowStatusFor fxRunRetryFail.1 1 1 = some .FAILED ∧
     rowStatusFor fxRunRetryFail.1 1 2 = some .SENT ∧
     campaignStatusFor fxRunRetryFail.1 1 = some .COMPLETED ∧
     fxRunRetryFail.1.messageLogs.length = 3 ∧
     fxRunRetryFail.2 = []) := by
  refine ⟨by decide, pcmSendWithRetry_script, by decide⟩

/-- The scripted send never touches the campaigns table. -/
theorem sendCampaignMessageS_campaigns (st : Store) (leadId cid tid : Nat)
    (hmu : Option String) (script : List WaResult) (now : Nat) :
    (sendCampaignMessageS st leadId cid tid hmu script now).2.1.campaigns = st.campaigns := by
  unfold sendCampaignMessageS
  split
  · exact sendCampaignMessage_campaigns ..
  · exact sendCampaignMessage_campaigns ..

/-- The send-with-retry block never touches the campaigns table. -/
theorem pcmSendWithRetry_campaigns (st : Store) (leadId cid tid : Nat)
    (hmu : Option String) (script : List WaResult) (now : Nat) :
    (pcmSendWithRetry st leadId cid tid hmu script now).2.1.campaigns = st.campaigns := by
  unfold pcmSendWithRetry
  dsimp only
  split
  · exact sendCampaignMessageS_campaigns ..
  · rw [sendCampaignMessageS_campaigns, sendCampaignMessageS_campaigns]

/-- The store the circuit breaker leaves behind: the recipient's row
FAILED, the campaign PAUSED with the bumped failure counter. -/
def pcmBreakStore (st : Store) (cid tid : Nat) (hmu : Option String) (leadId : Nat)
    (script : List WaResult) (now failed : Nat) : Store :=
  setCampaign
    (setRowStatus (pcmSendWithRetry st leadId cid tid hmu script now).2.1 cid leadId .FAILED)
    cid (fun c => { c with status := .PAUSED, failedCount := failed + 1 })

/-- When the recipient's send (after its retry) still fails with 131049 and
the consecutive count reaches the threshold, the loop body breaks with
the circuit-breaker store. -/
theorem pcmStep_circuit_break (st : Store) (cid tid : Nat) (hmu : Option String)
    (dl leadId : Nat) (script : List WaResult) (sent failed consec now : Nat)
    (campaign : Campaign)
    (hfind : st.campaigns.find? (fun c => decide (c.id = cid)) = some campaign)
    (hrun : campaign.status = .RUNNING)
    (hdl : ¬(dl > 0 ∧ sent ≥ dl))
    (hres : (pcmSendWithRetry st leadId cid tid hmu script now).1.success = false)
    (hcode : (pcmSendWithRetry st leadId cid tid hmu script now).1.errorCode = some 131049)
    (hconsec : consec + 1 ≥ 3) :
    pcmStep cid tid hmu dl st leadId script sent failed consec now
      = .brk (pcmBreakStore st cid tid hmu leadId script now failed)
          (pcmSendWithRetry st leadId cid tid hmu script now).2.2 sent (failed + 1) := by
  unfold pcmStep pcmBreakStore
  rw [hfind]
  dsimp only
  rw [if_neg (by simp [hrun]), if_neg hdl]
  simp only [hres, Bool.false_eq_true, if_false, hcode, if_pos hconsec]
  simp

/-- Once the loop body breaks, the run ends at the completion check — the
remaining recipients are never visited. -/
theorem pcmLoop_break (cid tid : Nat) (hmu : Option String) (dl now leadId : Nat)
    (rest : List Nat) (st : Store) (script : List WaResult)
    (sent failed consec : Nat) (st2 : Store) (script2 : List WaResult) (s2 f2 : Nat)
    (hstep : pcmStep cid tid hmu dl st leadId script sent failed consec now
      = .brk st2 script2 s2 f2) :
    pcmLoop cid tid hmu dl now (leadId :: rest) st script sent failed consec
      = (pcmFinalize st2 cid s2 f2 now, script2) := by
  show (match pcmStep cid tid hmu dl st leadId script sent failed consec now with
    | .brk a b c d => (pcmFinalize a cid c d now, b)
    | .cont a b c d e => pcmLoop cid tid hmu dl now rest a b c d e) = _
  rw [hstep]

/-- The completion check leaves a non-RUNNING campaign alone. -/
theorem pcmFinalize_not_running (st : Store) (cid sent failed now : Nat)
    (s : CampaignStatus)
    (h1 : campaignStatusFor st cid = some s) (h2 : s ≠ .RUNNING) :
    pcmFinalize st cid sent failed now = st := by
  unfold campaignStatusFor at h1
  unfold pcmFinalize
  cases hf : st.campaigns.find? (fun c => decide (c.id = cid)) with
  | none =>
      rfl
  | some c =>
      rw [hf] at h1
      simp only [Option.map] at h1
      have hcs : c.status = s := by
        injection h1
      dsimp only
      rw [if_neg (by rw [hcs]; exact h2)]

/-- The circuit-breaker store reads back PAUSED. -/
theorem pcmBreakStore_status (st : Store) (cid tid : Nat) (hmu : Option String)
    (leadId : Nat) (script : List WaResult) (now failed : Nat) (campaign : Campaign)
    (hfind : st.campaigns.find? (fun c => decide (c.id = cid)) = some campaign) :
    campaignStatusFor (pcmBreakStore st cid tid hmu leadId script now failed) cid
      = some .PAUSED := by
  unfold pcmBreakStore
  have hfind2 : (setRowStatus (pcmSendWithRetry st leadId cid tid hmu script now).2.1 cid
        leadId .FAILED).campaigns.find? (fun c => decide (c.id = cid)) = some campaign := by
    show (pcmSendWithRetry st leadId cid tid hmu script now).2.1.campaigns.find?
      (fun c => decide (c.id = cid)) = some campaign
    rw [pcmSendWithRetry_campaigns]
    exact hfind
  exact campaignStatusFor_setCampaign _ cid _ campaign hfind2 (fun _ => rfl)

/-- C4.  The circuit breaker: in any state, when a recipient's send (after
its retry) still fails with throttle code 131049 and that makes the
configured threshold of three consecutive throttle outcomes, the loop
stops at once — its result is the circuit-breaker store, PAUSED, with
the remaining recipients never visited and their script entries never
consumed.  Concretely, scripting three consecutive fully-throttled
recipients leaves the campaign PAUSED, recipients 4 and 5 PENDING, only
the six attempts for recipients 1-3 in the ledger and the rest of the
script unconsumed; and a successful outcome resets the consecutive
count: the same throttles interrupted by one success COMPLETE the run
instead. -/
theorem circuit_breaker_pauses_and_stops :
    (∀ (st : Store) (cid tid : Nat) (hmu : Option String) (dl leadId : Nat)
        (rest : List Nat) (script : List WaResult) (sent failed consec now : Nat)
        (campaign : Campaign),
      st.campaigns.find? (fun c => decide (c.id = cid)) = some campaign →
      campaign.status = .RUNNING →
      ¬(dl > 0 ∧ sent ≥ dl) →
      (pcmSendWithRetry st leadId cid tid hmu script now).1.success = false →
      (pcmSendWithRetry st leadId cid tid hmu script now).1.errorCode = some 131049 →
      consec + 1 ≥ 3 →
      pcmLoop cid tid hmu dl now (leadId :: rest) st script sent failed consec
        = (pcmBreakStore st cid tid hmu leadId script now failed,
            (pcmSendWithRetry st leadId cid tid hmu script now).2.2) ∧
      campaignStatusFor (pcmBreakStore st cid tid hmu leadId script now failed) cid
        = some .PAUSED) ∧
    campaignStatusFor fxRunBreak.1 1 = some .PAUSED ∧
    fxRunBreak.1.campaignLeads.map CampaignLead.status
      = [.FAILED, .FAILED, .FAILED, .PENDING, .PENDING] ∧
    fxRunBreak.1.messageLogs.length = 6 ∧
    fxRunBreak.2 = [fxWaOk, fxWaOk] ∧
    campaignStatusFor fxRunReset.1 1 = some .COMPLETED ∧
    fxRunReset.1.campaignLeads.map CampaignLead.status
      = [.FAILED, .SENT, .FAILED, .FAILED, .PENDING] ∧
    fxRunReset.2 = [] := by
  refine ⟨?_, by decide⟩
  intro st cid tid hmu dl leadId rest script sent failed consec now campaign
    hfind hrun hdl hres hcode hconsec
  have hpause := pcmBreakStore_status st cid tid hmu leadId script now failed campaign hfind
  refine ⟨?_, hpause⟩
  rw [pcmLoop_break cid tid hmu dl now leadId rest st script sent failed consec _ _ _ _
    (pcmStep_circuit_break st cid tid hmu dl leadId script sent failed consec now campaign
      hfind hrun hdl hres hcode hconsec)]
  rw [pcmFinalize_not_running _ _ _ _ _ .PAUSED hpause (by simp)]

/-- Witness for the universal part of C4: with two prior consecutive
throttles, recipient 1's double throttle trips the breaker and recipient
2 is never dispatched. -/
theorem circuit_breaker_pauses_and_stops_witness :
    pcmLoop 1 5 none 0 100 [1, 2] fxStoreRun [fxWaThrottle, fxWaThrottle] 0 0 2
      = (pcmBreakStore fxStoreRun 1 5 none 1 [fxWaThrottle, fxWaThrottle] 100 0,
          (pcmSendWithRetry fxStoreRun 1 1 5 none [fxWaThrottle, fxWaThrottle] 100).2.2) ∧
    campaignStatusFor (pcmBreakStore fxStoreRun 1 5 none 1 [fxWaThrottle, fxWaThrottle] 100 0) 1
      = some .PAUSED :=
  circuit_breaker_pauses_and_stops.1 fxStoreRun 1 5 none 0 1 [2]
    [fxWaThrottle, fxWaThrottle] 0 0 2 100 (fxCampaign .RUNNING)
    (by decide) (by decide) (by decide) (by decide) (by decide) (by decide)
